import Mathlib

/-!
# Simple Bank: a shallow embedding of the money-movement and loan code

The Go sources embedded here are `handlers.go` (HTTP handlers over the in-memory
`storage`), `utils.go` (amortization and Luhn helpers) and the billing worker of
`services.go`.

Modelling conventions.

* `decimal.Decimal` (shopspring) is an arbitrary-precision decimal; every operation the
  sources use depends only on the numerical value, so a decimal is modelled by that value
  in `ℚ`.  `Add`, `Sub`, `Mul`, `Neg` and the comparisons are exact; `Div` is `DivRound`
  with `DivisionPrecision = 16`; `RoundBank` is half-to-even; `Pow` with a positive
  integer exponent is the exact power.  The library keeps the decimal exponent in an
  `int32`; the only place where the sources can leave that range is the power
  `(1 + i) ^ termMonths`, and the statements over every term are bounded accordingly (see
  `CalculateMonthlyPayment`).
* `time.Time` is modelled by the instant, in nanoseconds since the Unix epoch; calendar
  arithmetic (`time.Date`, `AddDate`) is done in UTC.  Instants are unbounded integers; Go
  holds the seconds in an `int64`, and the statements over every year are bounded
  accordingly (see `Date`).
* Go maps (`map[string]T`) are association lists with unique keys (`AList`).
* Go strings that are inspected byte by byte (card numbers) are lists of bytes; strings
  that are only compared, stored or concatenated (identifiers, messages) are `String`.
* Go `int` values are unbounded here: the sums and counters of the embedded functions stay
  far below `2 ^ 63` on every input that fits in memory.
* Effects are made explicit: a handler takes the storage and returns the new storage and
  the response; fresh identifiers, clock readings, random draws and the outcome of the
  key-rate lookup are arguments.
* The repository functions (`GetAccount`, `UpdateAccountBalance`, `AddTransaction`,
  `AddLoan`), `computeCardHMAC` and the bcrypt comparison are not in the sources read; the
  handlers take them as a parameter (`Deps`), and `specDeps` gives the instance described
  by the specification.
* The `loan_payments` table the worker reads and updates is a list of rows; the `SELECT`
  is a filter and the `UPDATE` a map over that list, and a failing statement is an input
  (`DbEnv`).
* Logging has no effect on the storage or the response and is left out.
-/

namespace Bank

/-! ## Data model -/

/-- The value of a `decimal.Decimal`. -/
abbrev Decimal := ℚ

/-- An instant: nanoseconds since the Unix epoch. -/
abbrev Time := Int

/-- Go `map[string]T`. -/
abbrev GoMap (β : Type) := AList (fun _ : String => β)

/-- Modelled from the spec: the declaration of `User` is not among the sources; the fields
are those of section 3 under the names `handlers.go` uses. -/
structure User where
  ID : String
  Username : String
  Email : String
  PasswordHash : String
  CreatedAt : Time
deriving DecidableEq

/-- Modelled from the spec: the declaration of `Account` is not among the sources; the
fields are those of section 3 under the names `handlers.go` uses. -/
structure Account where
  ID : String
  UserID : String
  Number : String
  Balance : Decimal
  CreatedAt : Time
deriving DecidableEq

/-- Modelled from the spec: the declaration of `Card` is not among the sources; the fields
are those of section 3 under the names `handlers.go` uses (`Number` holds the encrypted
PAN, `CVV` the hash). -/
structure Card where
  ID : String
  AccountID : String
  Number : String
  CVV : String
  ExpiryMonth : Int
  ExpiryYear : Int
  CreatedAt : Time
  HMAC : String
deriving DecidableEq

/-- Modelled from the spec: the declaration of `Transaction` (a journal entry) is not among
the sources; the fields are those `handlers.go` fills in. -/
structure Transaction where
  ID : String
  FromAccountID : String
  ToAccountID : String
  Amount : Decimal
  Timestamp : Time
  TransactionType : String
  Description : String
deriving DecidableEq

/-- Modelled from the spec: the declaration of `Payment` (one installment of a loan
schedule) is not among the sources; the fields are those `GeneratePaymentSchedule` fills
in. -/
structure Payment where
  DueDate : Time
  Amount : Decimal
  InterestPart : Decimal
  PrincipalPart : Decimal
  Paid : Bool
deriving DecidableEq

/-- Modelled from the spec: the declaration of `Loan` is not among the sources; the fields
are those `ApplyLoanHandler` fills in. -/
structure Loan where
  ID : String
  UserID : String
  AccountID : String
  Amount : Decimal
  InterestRate : Decimal
  TermMonths : Int
  StartDate : Time
  PaymentSchedule : List Payment
  RemainingAmount : Decimal
deriving DecidableEq

/-- Modelled from the spec: the declaration of the process-wide `storage` value is not
among the sources; it has the maps and the journal slice the handlers reach into.  Its
mutex is not modelled: a handler call is one atomic step here. -/
structure Storage where
  users : GoMap User
  accounts : GoMap Account
  cards : GoMap Card
  loans : GoMap Loan
  transactions : List Transaction

/-- Modelled from the spec: the decoded body of a transfer request, with the fields
`TransferHandler` reads. -/
structure TransferRequest where
  FromAccountID : String
  ToAccountID : String
  Amount : Decimal
deriving DecidableEq

/-- Modelled from the spec: the decoded body of a deposit request, with the fields
`DepositHandler` reads. -/
structure DepositRequest where
  ToAccountID : String
  Amount : Decimal
deriving DecidableEq

/-- Modelled from the spec: the decoded body of a card payment request, with the fields
`PayWithCardHandler` reads. -/
structure PaymentRequest where
  CardNumber : String
  CVV : String
  Amount : Decimal
  Merchant : String
deriving DecidableEq

/-- Modelled from the spec: the decoded body of a loan application, with the fields
`ApplyLoanHandler` reads. -/
structure ApplyLoanRequest where
  UserID : String
  AccountID : String
  Amount : Decimal
  TermMonths : Int
deriving DecidableEq

/-- What a handler sees of `*http.Request`: the value stored under `userContextKey` by
`JWTMiddleware` (if any) and the result of decoding the JSON body (`none` when
`json.NewDecoder(r.Body).Decode` fails). -/
structure Request (β : Type) where
  user : Option String
  body : Option β

/-- The JSON payload written by a handler. -/
inductive Payload where
  | error (msg : String)
  | message (msg : String)
  | loan (l : Loan)
deriving DecidableEq

/-- The HTTP answer: status code and payload. -/
structure Response where
  status : Nat
  payload : Payload
deriving DecidableEq

/-- Go `respondJSON(w, status, payload)`. -/
def respondJSON (status : Nat) (payload : Payload) : Response :=
  ⟨status, payload⟩

/-- Go `respondError(w, code, message)`. -/
def respondError (code : Nat) (msg : String) : Response :=
  respondJSON code (Payload.error msg)

/-- The sum of all account balances of a store. -/
def totalBalance (accounts : GoMap Account) : Decimal :=
  (accounts.entries.map (fun e => e.2.Balance)).sum

/-! ## Transfers (`handlers.go`, `TransferHandler`) -/

/-- Go `TransferHandler`: `newID` is the value of `GenerateID()` and `now` that of
`time.Now()` when the journal entry is built. -/
def TransferHandler (st : Storage) (r : Request TransferRequest) (newID : String)
    (now : Time) : Storage × Response :=
  match r.body with
  | none => (st, respondError 400 "Invalid request payload")
  | some req =>
    if req.FromAccountID = req.ToAccountID then
      (st, respondError 400 "Cannot transfer to the same account")
    else if req.Amount ≤ 0 then
      (st, respondError 400 "Transfer amount must be positive")
    else
      match st.accounts.lookup req.FromAccountID, st.accounts.lookup req.ToAccountID with
      | none, _ =>
        (st, respondError 404 ("Source account " ++ req.FromAccountID ++ " not found"))
      | some _, none =>
        (st, respondError 404 ("Destination account " ++ req.ToAccountID ++ " not found"))
      | some fromAccount, some toAccount =>
        if fromAccount.Balance < req.Amount then
          (st, respondError 402 "Insufficient funds in source account")
        else
          let fromAccount1 := { fromAccount with Balance := fromAccount.Balance - req.Amount }
          let toAccount1 := { toAccount with Balance := toAccount.Balance + req.Amount }
          let accounts1 := st.accounts.insert req.FromAccountID fromAccount1
          let accounts2 := accounts1.insert req.ToAccountID toAccount1
          let tx : Transaction :=
            { ID := newID
              FromAccountID := req.FromAccountID
              ToAccountID := req.ToAccountID
              Amount := req.Amount
              Timestamp := now
              TransactionType := "transfer"
              Description :=
                "Transfer from " ++ fromAccount1.Number ++ " to " ++ toAccount1.Number }
          ({ st with accounts := accounts2, transactions := st.transactions ++ [tx] },
            respondJSON 200 (Payload.message "Transfer successful"))

/-! ## Decimal arithmetic (the operations of `shopspring/decimal` used by the sources) -/

/-- The integer `v` such that rounding `x` half away from zero to `places` fractional
digits gives `v / 10 ^ places`. -/
def roundUnits (x : Decimal) (places : Nat) : Int :=
  if 0 ≤ x then ⌊x * 10 ^ places + 1 / 2⌋ else -⌊-x * 10 ^ places + 1 / 2⌋

/-- Go `d.Round(places)`: rounding half away from zero. -/
def Round (x : Decimal) (places : Nat) : Decimal :=
  (roundUnits x places : ℚ) / 10 ^ places

/-- Go `d.Div(d2)`, that is `d.DivRound(d2, DivisionPrecision)` with
`DivisionPrecision = 16`: the quotient rounded half away from zero to 16 fractional digits.  The library panics on
a zero divisor; the sources only divide by 12, by 100, by a positive term and by a
denominator tested with `IsZero`. -/
def Div (d d2 : Decimal) : Decimal :=
  Round (d / d2) 16

/-- Go `d.RoundBank(places)`: `Round`, and when the remainder is exactly one half of the last
place and the rounded value is odd, one unit back towards zero. -/
def RoundBank (x : Decimal) (places : Nat) : Decimal :=
  let round := Round x places
  let remainder := |x - round|
  if remainder = 5 / 10 ^ (places + 1) ∧ roundUnits x places % 2 ≠ 0 then
    if roundUnits x places < 0 then ((roundUnits x places + 1 : Int) : ℚ) / 10 ^ places
    else ((roundUnits x places - 1 : Int) : ℚ) / 10 ^ places
  else round

/-! ## Calendar time (`time.Date`, `Time.AddDate`, in UTC) -/

def nanosPerDay : Int := 86400 * 1000000000

/-- Go `isLeap(year)`. -/
def isLeap (year : Int) : Bool :=
  year % 4 = 0 ∧ (year % 100 ≠ 0 ∨ year % 400 = 0)

/-- Go `daysBefore[m]`: days of a non-leap year before the month with index `m`
(0 = January). -/
def daysBefore (m : Int) : Int :=
  match m with
  | 0 => 0
  | 1 => 31
  | 2 => 59
  | 3 => 90
  | 4 => 120
  | 5 => 151
  | 6 => 181
  | 7 => 212
  | 8 => 243
  | 9 => 273
  | 10 => 304
  | 11 => 334
  | _ => 365

/-- Days from 1970-01-01 to January 1 of `year` (proleptic Gregorian calendar). -/
def daysSinceEpoch (year : Int) : Int :=
  365 * (year - 1) + (year - 1) / 4 - (year - 1) / 100 + (year - 1) / 400 - 719162

/-- Go `time.Date(year, month, day, hour, min, sec, nsec, time.UTC)`.  The month is normalised
into the year as `norm` does; the result is linear in the other fields, which is what
their normalisation amounts to.  The instant is an unbounded integer here, whereas Go keeps
the seconds of a `time.Time` in an `int64`, which holds the dates of the years within about
292 billion of year 1 and wraps beyond; the statements below that range over every year
bound it by `10^9` in absolute value. -/
def Date (year month day hour min sec nsec : Int) : Time :=
  let year1 := year + (month - 1) / 12
  let m := (month - 1) % 12
  let d := daysSinceEpoch year1 + daysBefore m
    + (if isLeap year1 ∧ 3 ≤ m + 1 then 1 else 0) + (day - 1)
  (d * 86400 + hour * 3600 + min * 60 + sec) * 1000000000 + nsec

/-- Go `t.Date()` in UTC: year, month (1..12) and day of the month of an instant. -/
def civil (t : Time) : Int × Int × Int :=
  let z := t / nanosPerDay + 719468
  let era := z / 146097
  let doe := z % 146097
  let yoe := (doe - doe / 1460 + doe / 36524 - doe / 146096) / 365
  let doy := doe - (365 * yoe + yoe / 4 - yoe / 100)
  let mp := (5 * doy + 2) / 153
  let d := doy - (153 * mp + 2) / 5 + 1
  let m := if mp < 10 then mp + 3 else mp - 9
  (if m ≤ 2 then yoe + era * 400 + 1 else yoe + era * 400, m, d)

/-- Go `t.AddDate(years, months, days)` in UTC. -/
def AddDate (t : Time) (years months days : Int) : Time :=
  let ymd := civil t
  let r := t % nanosPerDay
  Date (ymd.1 + years) (ymd.2.1 + months) (ymd.2.2 + days) (r / 3600000000000)
    (r / 60000000000 % 60) (r / 1000000000 % 60) (r % 1000000000)

/-- The zero value `time.Time{}` (January 1 of year 1, 00:00:00 UTC). -/
def zeroTime : Time := -62135596800 * 1000000000

/-! ## Amortization (`utils.go`) -/

/-- Go `CalculateMonthlyPayment`.  The quotient `monthlyRate` has exponent `-16` in the
library, so `powOnePlusRate` has exponent `-16 · termMonths` and `numerator` has exponent
`-16 · (termMonths + 1)`; the library keeps exponents in an `int32`, so the exact power used
here is what the code computes for `termMonths ≤ 134217727` (`16 · (termMonths + 1) ≤ 2^31`).
The statements below that range over every term carry this bound. -/
def CalculateMonthlyPayment (loanAmount annualRate : Decimal) (termMonths : Int) : Decimal :=
  if termMonths ≤ 0 then 0
  else
    let monthlyRate := Div (Div annualRate 12) 100
    if monthlyRate = 0 then Div loanAmount termMonths
    else
      let onePlusRate := 1 + monthlyRate
      let powOnePlusRate := onePlusRate ^ termMonths.toNat
      let numerator := monthlyRate * powOnePlusRate
      let denominator := powOnePlusRate - 1
      if denominator = 0 then 0
      else RoundBank (loanAmount * Div numerator denominator) 2

/-- The body of the `for` loop of `GeneratePaymentSchedule`: `k` bounds the iterations
still to run (`termMonths - i`), `i` is the loop counter.  The due date is
`startDate.AddDate(0, i+1, 0)` computed in UTC: it is the Go value for a `startDate` whose
location is UTC (in another location the calendar day of `startDate`, and with it the due
date, can differ); amounts, parts and the number of installments do not depend on it. -/
def scheduleLoop (monthlyRate : Decimal) (termMonths : Int) (startDate : Time) :
    Nat → Int → Decimal → Decimal → List Payment
  | 0, _, _, _ => []
  | k + 1, i, remainingPrincipal, monthlyPayment =>
    let dueDate := AddDate startDate 0 (i + 1) 0
    let interestPart := RoundBank (remainingPrincipal * monthlyRate) 2
    let principalPart := monthlyPayment - interestPart
    let last := i = termMonths - 1 ∨ remainingPrincipal - principalPart ≤ 0
    let principalPart1 := if last then remainingPrincipal else principalPart
    let monthlyPayment1 :=
      if last then RoundBank (principalPart1 + interestPart) 2 else monthlyPayment
    let payment : Payment :=
      { DueDate := dueDate
        Amount := monthlyPayment1
        InterestPart := interestPart
        PrincipalPart := principalPart1
        Paid := false }
    if remainingPrincipal - principalPart1 ≤ 0 then [payment]
    else payment ::
      scheduleLoop monthlyRate termMonths startDate k (i + 1)
        (remainingPrincipal - principalPart1) monthlyPayment1

/-- Go `GeneratePaymentSchedule`.  The Go function first allocates
`make([]Payment, 0, termMonths)`, which panics for a negative capacity (and for one beyond
the addressable memory); `ApplyLoanHandler` calls it only after rejecting
`termMonths ≤ 0`, and the statements below are for positive terms within the range of
`CalculateMonthlyPayment`. -/
def GeneratePaymentSchedule (loanAmount annualRate : Decimal) (termMonths : Int)
    (startDate : Time) (monthlyPayment : Decimal) : List Payment :=
  scheduleLoop (Div (Div annualRate 12) 100) termMonths startDate termMonths.toNat 0
    loanAmount monthlyPayment

/-! ## Card numbers (`utils.go`) -/

/-- A Go string, as its bytes. -/
abbrev GoString := List (Fin 256)

/-- Go `fmt.Sprintf("%d", n)` for a non-negative `n`. -/
def sprintfD (n : Nat) : GoString :=
  (Nat.toDigits 10 n).map (fun c => Fin.ofNat c.toNat)

/-- One step of the Luhn loops: the byte minus `'0'` (in `uint8`), doubled and folded when
`alt` is set. -/
def luhnDigit (c : Fin 256) (alt : Bool) : Nat :=
  let digit := (c - 48).val
  if alt then (if digit * 2 > 9 then digit * 2 - 9 else digit * 2) else digit

/-- The loop shared by `ValidateCardNumberLuhn` and `calculateLuhnCheckDigit`, run over
the bytes from the last to the first. -/
def luhnLoop : List (Fin 256) → Bool → Nat → Nat
  | [], _, sum => sum
  | c :: rest, alt, sum => luhnLoop rest (!alt) (sum + luhnDigit c alt)

/-- Go `ValidateCardNumberLuhn`. -/
def ValidateCardNumberLuhn (cardNumber : GoString) : Bool :=
  luhnLoop cardNumber.reverse false 0 % 10 == 0

/-- Go `calculateLuhnCheckDigit`. -/
def calculateLuhnCheckDigit (number : GoString) : Nat :=
  let mod := luhnLoop number.reverse true 0 % 10
  if mod = 0 then 0 else 10 - mod

/-- The inner loop of `GenerateValidCardNumber`, `for len(number) < length-1`: `draws` are
the successive values of `rand.Int(rand.Reader, big.NewInt(10))`, `pos` counts the draws
consumed; `k` bounds the iterations, each of which appends at least one byte. -/
def fillDigits (draws : Nat → Nat) : Nat → GoString → Nat → GoString × Nat
  | 0, number, pos => (number, pos)
  | k + 1, number, pos =>
    if number.length < 16 - 1 then
      fillDigits draws k (number ++ sprintfD (draws pos)) (pos + 1)
    else (number, pos)

/-- Go `GenerateValidCardNumber`: the outer `for` loop runs at most `fuel` times, `none` when
the fuel is used up. -/
def GenerateValidCardNumber (draws : Nat → Nat) : Nat → Nat → Option GoString
  | 0, _ => none
  | fuel + 1, pos =>
    let filled := fillDigits draws (16 - 1 - 1) [52] pos
    let number := filled.1
    let checkDigit := calculateLuhnCheckDigit number
    let cardNumber := number ++ sprintfD checkDigit
    if ValidateCardNumberLuhn cardNumber then some cardNumber
    else GenerateValidCardNumber draws fuel filled.2

/-! ## Collaborators of the handlers that are not part of `handlers.go` -/

/-- The repository functions and library calls the handlers use. -/
structure Deps where
  /-- Go `GetAccount(id)`. -/
  GetAccount : Storage → String → Option Account
  /-- Go `UpdateAccountBalance(id, delta)`: the new storage, or the error message. -/
  UpdateAccountBalance : Storage → String → Decimal → Except String Storage
  /-- Go `AddTransaction(tx)`. -/
  AddTransaction : Storage → Transaction → Storage
  /-- Go `AddLoan(loan)`: the new storage, or the error message. -/
  AddLoan : Storage → Loan → Except String Storage
  /-- Go `computeCardHMAC(card)`. -/
  computeCardHMAC : Card → String
  /-- Go `bcrypt.CompareHashAndPassword(hash, password) == nil`. -/
  CompareHashAndPassword : String → String → Bool

/-- Go `strings.Contains(s, substr)`. -/
def stringsContains (s substr : String) : Bool :=
  decide (substr.data <:+: s.data)

/-- The zero value `Account{}`. -/
def zeroAccount : Account := ⟨"", "", "", 0, zeroTime⟩

/-! ## Card payments, deposits and loans (`handlers.go`) -/

/-- Go `GetCardByID`. -/
def GetCardByID (deps : Deps) (st : Storage) (cardID : String) : Option Card :=
  match st.cards.lookup cardID with
  | none => none
  | some card =>
    if deps.computeCardHMAC card ≠ card.HMAC then none else some card

/-- Go `PayWithCardHandler`: `now` and `now2` are the two readings of `time.Now()`, `newID`
the value of `GenerateID()`. -/
def PayWithCardHandler (deps : Deps) (st : Storage) (r : Request PaymentRequest)
    (now now2 : Time) (newID : String) : Storage × Response :=
  match r.body with
  | none => (st, respondError 400 "Invalid request payload")
  | some req =>
    if req.Amount ≤ 0 then (st, respondError 400 "Payment amount must be positive")
    else
      match GetCardByID deps st req.CardNumber with
      | none => (st, respondError 404 "Card not found")
      | some card =>
        if ¬ deps.CompareHashAndPassword card.CVV req.CVV then
          (st, respondError 401 "Invalid CVV")
        else
          let expiry := AddDate (Date card.ExpiryYear card.ExpiryMonth 1 23 59 59 0) 0 1 (-1)
          if expiry < now then (st, respondError 400 "Card expired")
          else
            match deps.GetAccount st card.AccountID with
            | none => (st, respondError 500 "Associated account not found")
            | some account =>
              if account.Balance < req.Amount then
                (st, respondError 402 "Insufficient funds")
              else
                match deps.UpdateAccountBalance st account.ID (-req.Amount) with
                | Except.error err =>
                  (st, respondError 500 ("Failed to process payment: " ++ err))
                | Except.ok st1 =>
                  let tx : Transaction :=
                    { ID := newID
                      FromAccountID := account.ID
                      ToAccountID := ""
                      Amount := req.Amount
                      Timestamp := now2
                      TransactionType := "payment"
                      Description := "Payment to " ++ req.Merchant }
                  (deps.AddTransaction st1 tx,
                    respondJSON 200 (Payload.message "Payment successful"))

/-- Go `DepositHandler`. -/
def DepositHandler (deps : Deps) (st : Storage) (r : Request DepositRequest)
    (newID : String) (now : Time) : Storage × Response :=
  match r.body with
  | none => (st, respondError 400 "Invalid request payload")
  | some req =>
    if req.Amount ≤ 0 then (st, respondError 400 "Deposit amount must be positive")
    else
      match deps.UpdateAccountBalance st req.ToAccountID req.Amount with
      | Except.error err =>
        if stringsContains err "not found" then (st, respondError 404 err)
        else (st, respondError 500 ("Failed to process deposit: " ++ err))
      | Except.ok st1 =>
        let account := (deps.GetAccount st1 req.ToAccountID).getD zeroAccount
        let tx : Transaction :=
          { ID := newID
            FromAccountID := ""
            ToAccountID := req.ToAccountID
            Amount := req.Amount
            Timestamp := now
            TransactionType := "deposit"
            Description := "Deposit to account " ++ account.Number }
        (deps.AddTransaction st1 tx,
          respondJSON 200 (Payload.message "Deposit successful"))

/-- Go `ApplyLoanHandler`: `keyRate` is the outcome of `GetCBRKeyRate(currentDate)`,
`startDate` and `now` the later readings of `time.Now()`, `loanID` and `txID` the two
values of `GenerateID()`. -/
def ApplyLoanHandler (deps : Deps) (st : Storage) (r : Request ApplyLoanRequest)
    (keyRate : Except String Decimal) (startDate now : Time) (loanID txID : String) :
    Storage × Response :=
  match r.body with
  | none => (st, respondError 400 "Invalid request payload")
  | some req =>
    if req.Amount ≤ 0 ∨ req.TermMonths ≤ 0 then
      (st, respondError 400 "Loan amount and term must be positive")
    else
      match r.user with
      | none => (st, respondError 401 "User  not found in context")
      | some userID =>
        if (st.users.lookup userID).isNone then
          (st, respondError 404 ("User  " ++ userID ++ " not found"))
        else if (st.accounts.lookup req.AccountID).isNone then
          (st, respondError 404 ("Account " ++ req.AccountID ++ " not found"))
        else
          let baseRate : Decimal :=
            match keyRate with
            | Except.error _ => 10
            | Except.ok rate => rate
          let interestRate := baseRate + 5
          let monthlyPayment := CalculateMonthlyPayment req.Amount interestRate req.TermMonths
          let schedule :=
            GeneratePaymentSchedule req.Amount interestRate req.TermMonths startDate
              monthlyPayment
          let loan : Loan :=
            { ID := loanID
              UserID := req.UserID
              AccountID := req.AccountID
              Amount := req.Amount
              InterestRate := interestRate
              TermMonths := req.TermMonths
              StartDate := startDate
              PaymentSchedule := schedule
              RemainingAmount := req.Amount }
          match deps.AddLoan st loan with
          | Except.error err => (st, respondError 500 ("Failed to save loan: " ++ err))
          | Except.ok st1 =>
            match deps.UpdateAccountBalance st1 req.AccountID req.Amount with
            | Except.error err =>
              (st1, respondError 500 ("Failed to disburse loan funds: " ++ err))
            | Except.ok st2 =>
              let tx : Transaction :=
                { ID := txID
                  FromAccountID := ""
                  ToAccountID := req.AccountID
                  Amount := req.Amount
                  Timestamp := now
                  TransactionType := "loan_disbursement"
                  Description := "Loan disbursement (ID: " ++ loan.ID ++ ")" }
              (deps.AddTransaction st2 tx, respondJSON 201 (Payload.loan loan))

/-! ## Masked card numbers (`handlers.go`, `maskCardNumber`) -/

/-- The bytes of the string literal "**** **** **** " (three groups of four stars, each
followed by a space). -/
def maskPrefix : GoString :=
  [42, 42, 42, 42, 32, 42, 42, 42, 42, 32, 42, 42, 42, 42, 32]

/-- Go `maskCardNumber`: `number[len(number)-4:]` is the slice of the last four bytes. -/
def maskCardNumber (number : GoString) : GoString :=
  if number.length < 4 then [42, 42, 42, 42]
  else maskPrefix ++ number.drop (number.length - 4)

/-! ## The billing worker (`services.go`) -/

/-- Go `payment`: one row of the `loan_payments` table as `ProcessPayments` scans it. -/
structure payment where
  LoanID : Int
  AccountID : Int
  DueDate : Time
  Amount : Decimal
  PenaltyAmount : Decimal
  Paid : Bool
deriving DecidableEq

/-- What the database does on a worker tick besides holding the table: whether the
`SELECT` fails and whether the `UPDATE` issued for a payment fails. -/
structure DbEnv where
  queryFails : Bool
  execFails : payment → Bool

/-- Go `processPayment`: `UPDATE loan_payments SET paid = TRUE WHERE loan_id = $1` with
`p.LoanID`; the table after the statement, or the error. -/
def processPayment (env : DbEnv) (table : List payment) (p : payment) :
    Except String (List payment) :=
  if env.execFails p then Except.error "не удалось обновить статус платежа"
  else Except.ok
    (table.map (fun row => if row.LoanID = p.LoanID then { row with Paid := true } else row))

/-- Go `ProcessPayments`: the rows with `payment_due_date <= now AND paid = FALSE` are
collected first, then `processPayment` runs on each of them in turn; an error is logged
and the loop goes on.  The result is the table after the tick. -/
def ProcessPayments (env : DbEnv) (table : List payment) (now : Time) : List payment :=
  if env.queryFails then table
  else
    let payments := table.filter (fun row => decide (row.DueDate ≤ now) && row.Paid == false)
    payments.foldl
      (fun tbl p =>
        match processPayment env tbl p with
        | Except.error _ => tbl
        | Except.ok tbl1 => tbl1)
      table

/-! ## The expiry instant in the words of the specification -/

/-- The number of days of a month (1..12) of a year in the Gregorian calendar. -/
def specDaysInMonth (year month : Int) : Int :=
  if month = 2 then
    (if year % 4 = 0 ∧ (year % 100 ≠ 0 ∨ year % 400 = 0) then 29 else 28)
  else if month = 4 ∨ month = 6 ∨ month = 9 ∨ month = 11 then 30
  else 31

/-- The instant 23:59:59 UTC on the last calendar day of `(month, year)`. -/
def specExpiry (year month : Int) : Time :=
  Date year month (specDaysInMonth year month) 23 59 59 0

/-- The day number (days since 1970-01-01) of the first day of a month. -/
def firstDayNumber (year month : Int) : Int :=
  daysSinceEpoch year + daysBefore (month - 1)
    + (if isLeap year ∧ 3 ≤ month then 1 else 0)

/-- The calendar date of a day number: `civil` without the division by the length of a
day. -/
def civilFromDays (days : Int) : Int × Int × Int :=
  let z := days + 719468
  let era := z / 146097
  let doe := z % 146097
  let yoe := (doe - doe / 1460 + doe / 36524 - doe / 146096) / 365
  let doy := doe - (365 * yoe + yoe / 4 - yoe / 100)
  let mp := (5 * doy + 2) / 153
  let d := doy - (153 * mp + 2) / 5 + 1
  let m := if mp < 10 then mp + 3 else mp - 9
  (if m ≤ 2 then yoe + era * 400 + 1 else yoe + era * 400, m, d)

/-- The table `daysBefore` on natural numbers, by month number 1..12. -/
def daysBeforeNat (month : Nat) : Nat :=
  match month with
  | 1 => 0
  | 2 => 31
  | 3 => 59
  | 4 => 90
  | 5 => 120
  | 6 => 151
  | 7 => 181
  | 8 => 212
  | 9 => 243
  | 10 => 273
  | 11 => 304
  | _ => 334

/-- The function `firstDayNumber` shifted by 719468 days (to 0000-03-01), on natural
numbers, for years from 1 on and months 1..12. -/
def firstDayIndex (year month : Nat) : Nat :=
  365 * (year - 1) + (year - 1) / 4 - (year - 1) / 100 + (year - 1) / 400 + 306
    + daysBeforeNat month
    + (if (year % 4 = 0 ∧ (year % 100 ≠ 0 ∨ year % 400 = 0)) ∧ 3 ≤ month then 1 else 0)

/-- The year of the era of a day of the era, on natural numbers. -/
def yoeNat (doe : Nat) : Nat :=
  (doe - doe / 1460 + doe / 36524 - doe / 146096) / 365

/-- The run of `civilFromDays` on the first day of a month, replayed on natural numbers:
every subtraction stays above zero and the result is the first of that month. -/
def firstOfMonthCheck (year month : Nat) : Bool :=
  let z := firstDayIndex year month
  let doe := z % 146097
  let yoe := yoeNat doe
  let s := 365 * yoe + yoe / 4 - yoe / 100
  let doy := doe - s
  let mp := (5 * doy + 2) / 153
  decide (doe / 146096 ≤ doe - doe / 1460 + doe / 36524) && decide (s ≤ doe) &&
    decide ((153 * mp + 2) / 5 = doy) &&
    decide (if mp < 10 then mp + 3 = month else mp = month + 9) &&
    decide (if month ≤ 2 then yoe + z / 146097 * 400 + 1 = year
      else yoe + z / 146097 * 400 = year)

/-! ## Reference collaborators and concrete inputs -/

/-- Modelled from the spec: the repository operations `GetAccount`, `UpdateAccountBalance`,
`AddTransaction` and `AddLoan` are missing from the sources; section 4.7 gives them as a
single-key get, an atomic balance update that fails when the account is unknown or the
resulting balance would be negative, and two inserts.  `computeCardHMAC` and the bcrypt
comparison are keyed primitives; here they are stand-ins that only serve to run the
handlers on concrete inputs. -/
def specDeps : Deps :=
  { GetAccount := fun st id => st.accounts.lookup id
    UpdateAccountBalance := fun st id delta =>
      match st.accounts.lookup id with
      | none => Except.error ("account " ++ id ++ " not found")
      | some a =>
        if a.Balance + delta < 0 then Except.error "insufficient funds"
        else Except.ok
          { st with accounts := st.accounts.insert id { a with Balance := a.Balance + delta } }
    AddTransaction := fun st tx => { st with transactions := st.transactions ++ [tx] }
    AddLoan := fun st loan => Except.ok { st with loans := st.loans.insert loan.ID loan }
    computeCardHMAC := fun card =>
      "mac:" ++ card.ID ++ ":" ++ card.AccountID ++ ":" ++ card.Number
    CompareHashAndPassword := fun hash password => hash == "bcrypt:" ++ password }

/-- Account "A1" of scenario 3 of the specification, owned by alice. -/
def exA1 : Account := ⟨"A1", "alice", "408178101000000001", 1000, 0⟩

/-- Account "A2", owned by bob. -/
def exA2 : Account := ⟨"A2", "bob", "408178101000000002", 0, 0⟩

/-- A store holding the accounts "A1" and "A2". -/
def exStore : Storage :=
  { users := ∅
    accounts := AList.insert "A2" exA2 (AList.insert "A1" exA1 ∅)
    cards := ∅
    loans := ∅
    transactions := [] }

/-- The transfer of scenario 3: 250 from "A1" to "A2". -/
def exTransfer : TransferRequest := ⟨"A1", "A2", 250⟩

/-- A card on account "A1" whose stored HMAC is the one `specDeps` recomputes and whose
CVV hash is that of "123". -/
def exCard : Card :=
  { ID := "card-1"
    AccountID := "A1"
    Number := "pgp-ciphertext"
    CVV := "bcrypt:123"
    ExpiryMonth := 2
    ExpiryYear := 2028
    CreatedAt := 0
    HMAC := "mac:card-1:A1:pgp-ciphertext" }

/-- The same card stored under "card-2" with the last character of its HMAC changed. -/
def exTamperedCard : Card :=
  { exCard with ID := "card-2", HMAC := "mac:card-2:A1:pgp-ciphertexu" }

/-- The store `exStore` with the users alice and bob and the two cards. -/
def exCardStore : Storage :=
  { exStore with
    users := AList.insert "bob" ⟨"bob", "bob", "b@x", "", 0⟩
      (AList.insert "alice" ⟨"alice", "alice", "a@x", "", 0⟩ ∅)
    cards := AList.insert "card-2" exTamperedCard (AList.insert "card-1" exCard ∅) }

/-- A database in which no statement fails. -/
def exDbEnv : DbEnv := ⟨false, fun _ => false⟩

/-- Two unpaid installments of loan 1, due at instants 100 and 200. -/
def exLoanTable : List payment :=
  [⟨1, 10, 100, 50, 0, false⟩, ⟨1, 10, 200, 50, 0, false⟩]

/-- Every balance of the store is non-negative. -/
def nonNegative (accounts : GoMap Account) : Prop :=
  ∀ k a, accounts.lookup k = some a → 0 ≤ a.Balance

/-- The store and answer of an accepted transfer. -/
def transferResult (st : Storage) (req : TransferRequest) (a b : Account) (newID : String)
    (now : Time) : Storage × Response :=
  ({ st with
      accounts :=
        (st.accounts.insert req.FromAccountID { a with Balance := a.Balance - req.Amount }).insert
          req.ToAccountID { b with Balance := b.Balance + req.Amount },
      transactions := st.transactions ++
        [{ ID := newID
           FromAccountID := req.FromAccountID
           ToAccountID := req.ToAccountID
           Amount := req.Amount
           Timestamp := now
           TransactionType := "transfer"
           Description := "Transfer from " ++ a.Number ++ " to " ++ b.Number }] },
    respondJSON 200 (Payload.message "Transfer successful"))

/-- Every byte is a decimal digit. -/
def allDigits (s : GoString) : Prop :=
  ∀ c ∈ s, 48 ≤ c.val ∧ c.val ≤ 57

/-- Rounding to two fractional digits, ties to the even neighbour, as the specification
words it ("rounded to 2 places (banker's)"). -/
def specBankersRound2 (x : ℚ) : ℚ :=
  let f := ⌊x * 100⌋
  let frac := x * 100 - f
  if frac < 1 / 2 then (f : ℚ) / 100
  else if 1 / 2 < frac then ((f + 1 : Int) : ℚ) / 100
  else if f % 2 = 0 then (f : ℚ) / 100
  else ((f + 1 : Int) : ℚ) / 100

/-- The annuity payment in the specification's words: with `i = r / 12 / 100`,
`M = P · (i · (1+i)^n) / ((1+i)^n − 1)`, rounded to 2 places (banker's). -/
def specMonthlyPayment (P r : ℚ) (n : Nat) : ℚ :=
  specBankersRound2 (P * ((r / 12 / 100) * (1 + r / 12 / 100) ^ n)
    / ((1 + r / 12 / 100) ^ n - 1))

/-- The bytes of a Go string literal made of ASCII characters: one byte per character, the
code of the character. -/
def asciiBytes (s : String) : GoString :=
  s.data.map (fun c => Fin.ofNat c.toNat)

/-! # Theorems -/

/-! ## Lemmas on stores -/

theorem sum_balance_kerase (k : String) (v : Account) :
    ∀ l : List (Sigma fun _ : String => Account), l.dlookup k = some v →
      (l.map (fun e => e.2.Balance)).sum
        = v.Balance + ((l.kerase k).map (fun e => e.2.Balance)).sum := by
  intro l
  induction l with
  | nil => intro h; simp at h
  | cons hd tl ih =>
    intro h
    obtain ⟨k1, v1⟩ := hd
    by_cases hk : k = k1
    · subst hk
      simp only [List.dlookup_cons_eq, Option.some.injEq] at h
      subst h
      simp [List.kerase_cons_eq]
    · rw [List.dlookup_cons_ne _ _ hk] at h
      rw [List.kerase_cons_ne hk]
      simp only [List.map_cons, List.sum_cons]
      rw [ih h]
      ring

theorem totalBalance_insert (m : GoMap Account) (k : String) (v w : Account)
    (h : m.lookup k = some v) :
    totalBalance (m.insert k w) = totalBalance m - v.Balance + w.Balance := by
  unfold totalBalance
  rw [AList.insert_entries]
  rw [sum_balance_kerase k v m.entries h]
  simp only [List.map_cons, List.sum_cons]
  ring

theorem TransferHandler_accept (st : Storage) (r : Request TransferRequest) (newID : String)
    (now : Time) (req : TransferRequest) (a b : Account)
    (hbody : r.body = some req) (hne : req.FromAccountID ≠ req.ToAccountID)
    (hpos : 0 < req.Amount)
    (hfrom : st.accounts.lookup req.FromAccountID = some a)
    (hto : st.accounts.lookup req.ToAccountID = some b)
    (hbal : req.Amount ≤ a.Balance) :
    TransferHandler st r newID now = transferResult st req a b newID now := by
  unfold TransferHandler transferResult
  simp only [hbody, hfrom, hto]
  rw [if_neg hne, if_neg (not_le.mpr hpos), if_neg (not_lt.mpr hbal)]

/-- Every answer of `TransferHandler` other than 200 leaves the storage as it was. -/
theorem TransferHandler_reject_unchanged (st : Storage) (r : Request TransferRequest)
    (newID : String) (now : Time) (h : (TransferHandler st r newID now).2.status ≠ 200) :
    (TransferHandler st r newID now).1 = st := by
  unfold TransferHandler at h ⊢
  split
  · rfl
  · split
    · rfl
    · split
      · rfl
      · split
        · rfl
        · rfl
        · split
          · rfl
          · rename_i hb
            exfalso
            apply h
            simp only [*, if_false, respondJSON] at *

theorem exStore_lookup_A1 : exStore.accounts.lookup "A1" = some exA1 := by
  decide

theorem exStore_lookup_A2 : exStore.accounts.lookup "A2" = some exA2 := by
  decide

/-- C1: an accepted transfer (distinct existing accounts, amount > 0, source balance at
least the amount) answers 200, debits the source by exactly the amount, credits the
destination by exactly the amount, leaves every other account as it was, keeps the sum of
all balances, and appends exactly one journal entry of kind "transfer" carrying the
source, the destination and the amount. -/
theorem C1_transfer_effect (st : Storage) (r : Request TransferRequest) (newID : String)
    (now : Time) (req : TransferRequest) (a b : Account)
    (hbody : r.body = some req) (hne : req.FromAccountID ≠ req.ToAccountID)
    (hpos : 0 < req.Amount)
    (hfrom : st.accounts.lookup req.FromAccountID = some a)
    (hto : st.accounts.lookup req.ToAccountID = some b)
    (hbal : req.Amount ≤ a.Balance) :
    (TransferHandler st r newID now).2.status = 200 ∧
    (TransferHandler st r newID now).1.accounts.lookup req.FromAccountID
      = some { a with Balance := a.Balance - req.Amount } ∧
    (TransferHandler st r newID now).1.accounts.lookup req.ToAccountID
      = some { b with Balance := b.Balance + req.Amount } ∧
    (∀ k, k ≠ req.FromAccountID → k ≠ req.ToAccountID →
      (TransferHandler st r newID now).1.accounts.lookup k = st.accounts.lookup k) ∧
    totalBalance (TransferHandler st r newID now).1.accounts = totalBalance st.accounts ∧
    (∃ tx : Transaction,
      (TransferHandler st r newID now).1.transactions = st.transactions ++ [tx] ∧
      tx.TransactionType = "transfer" ∧ tx.FromAccountID = req.FromAccountID ∧
      tx.ToAccountID = req.ToAccountID ∧ tx.Amount = req.Amount) := by
  rw [TransferHandler_accept st r newID now req a b hbody hne hpos hfrom hto hbal]
  refine ⟨rfl, ?_, ?_, ?_, ?_, ⟨_, rfl, rfl, rfl, rfl, rfl⟩⟩
  · simp only [transferResult]
    rw [AList.lookup_insert_ne hne, AList.lookup_insert]
  · simp only [transferResult]
    rw [AList.lookup_insert]
  · intro k h1 h2
    simp only [transferResult]
    rw [AList.lookup_insert_ne h2, AList.lookup_insert_ne h1]
  · simp only [transferResult]
    rw [totalBalance_insert _ req.ToAccountID b _
        (by rw [AList.lookup_insert_ne (Ne.symm hne)]; exact hto),
      totalBalance_insert _ req.FromAccountID a _ hfrom]
    simp only
    ring

theorem C1_transfer_effect_witness :
    (TransferHandler exStore ⟨some "bob", some exTransfer⟩ "tx-1" 5).2.status = 200 ∧
    (TransferHandler exStore ⟨some "bob", some exTransfer⟩ "tx-1" 5).1.accounts.lookup "A1"
      = some { exA1 with Balance := 1000 - 250 } ∧
    (TransferHandler exStore ⟨some "bob", some exTransfer⟩ "tx-1" 5).1.accounts.lookup "A2"
      = some { exA2 with Balance := 0 + 250 } :=
  have h := C1_transfer_effect exStore ⟨some "bob", some exTransfer⟩ "tx-1" 5 exTransfer
    exA1 exA2 rfl (by decide) (by decide) exStore_lookup_A1 exStore_lookup_A2 (by decide)
  ⟨h.1, h.2.1, h.2.2.1⟩

/-- The status code of `TransferHandler` on a decoded request, check by check. -/
theorem TransferHandler_status (st : Storage) (r : Request TransferRequest) (newID : String)
    (now : Time) (req : TransferRequest) (hbody : r.body = some req) :
    (TransferHandler st r newID now).2.status =
      if req.FromAccountID = req.ToAccountID ∨ req.Amount ≤ 0 then 400
      else if st.accounts.lookup req.FromAccountID = none
          ∨ st.accounts.lookup req.ToAccountID = none then 404
      else if ∃ a, st.accounts.lookup req.FromAccountID = some a ∧ a.Balance < req.Amount
        then 402
      else 200 := by
  unfold TransferHandler
  simp only [hbody]
  by_cases h1 : req.FromAccountID = req.ToAccountID
  · simp [h1, respondError, respondJSON]
  · by_cases h2 : req.Amount ≤ 0
    · simp [h1, h2, respondError, respondJSON]
    · rw [if_neg h1, if_neg h2, if_neg (by simp [h1, h2])]
      cases hf : st.accounts.lookup req.FromAccountID with
      | none => simp [respondError, respondJSON]
      | some a =>
        cases ht : st.accounts.lookup req.ToAccountID with
        | none => simp [respondError, respondJSON]
        | some b =>
          by_cases h3 : a.Balance < req.Amount
          · simp [h3, respondError, respondJSON]
          · simp [h3, respondJSON]

/-- C2: on a decoded request `TransferHandler` answers something other than 200 exactly
when from = to, or amount <= 0, or the source account is missing, or the destination
account is missing, or the source balance is less than the amount; a rejected request
leaves the whole storage (balances and journal) unchanged; the status is 400 for
from = to or amount <= 0, otherwise 404 for a missing account, otherwise 402 for
insufficient funds, and 200 in every other case. -/
theorem C2_transfer_rejection (st : Storage) (r : Request TransferRequest) (newID : String)
    (now : Time) (req : TransferRequest) (hbody : r.body = some req) :
    ((TransferHandler st r newID now).2.status ≠ 200 ↔
      (req.FromAccountID = req.ToAccountID ∨ req.Amount ≤ 0 ∨
        st.accounts.lookup req.FromAccountID = none ∨
        st.accounts.lookup req.ToAccountID = none ∨
        ∃ a, st.accounts.lookup req.FromAccountID = some a ∧ a.Balance < req.Amount)) ∧
    ((TransferHandler st r newID now).2.status ≠ 200 →
      (TransferHandler st r newID now).1 = st) ∧
    (req.FromAccountID = req.ToAccountID ∨ req.Amount ≤ 0 →
      (TransferHandler st r newID now).2.status = 400) ∧
    (req.FromAccountID ≠ req.ToAccountID → 0 < req.Amount →
      (st.accounts.lookup req.FromAccountID = none ∨
        st.accounts.lookup req.ToAccountID = none) →
      (TransferHandler st r newID now).2.status = 404) ∧
    (req.FromAccountID ≠ req.ToAccountID → 0 < req.Amount →
      ∀ a b, st.accounts.lookup req.FromAccountID = some a →
        st.accounts.lookup req.ToAccountID = some b → a.Balance < req.Amount →
        (TransferHandler st r newID now).2.status = 402) ∧
    (¬ (req.FromAccountID = req.ToAccountID ∨ req.Amount ≤ 0 ∨
        st.accounts.lookup req.FromAccountID = none ∨
        st.accounts.lookup req.ToAccountID = none ∨
        ∃ a, st.accounts.lookup req.FromAccountID = some a ∧ a.Balance < req.Amount) →
      (TransferHandler st r newID now).2.status = 200) := by
  have hs := TransferHandler_status st r newID now req hbody
  refine ⟨?_, TransferHandler_reject_unchanged st r newID now, ?_, ?_, ?_, ?_⟩
  · rw [hs]
    constructor
    · intro h
      by_contra hc
      push_neg at hc
      obtain ⟨c1, c2, c3, c4, c5⟩ := hc
      apply h
      rw [if_neg (by push_neg; exact ⟨c1, c2⟩), if_neg (by push_neg; exact ⟨c3, c4⟩),
        if_neg (by push_neg; exact c5)]
    · intro h
      split_ifs with g1 g2 g3
      · decide
      · decide
      · decide
      · exfalso
        rcases h with h | h | h | h | h
        · exact g1 (Or.inl h)
        · exact g1 (Or.inr h)
        · exact g2 (Or.inl h)
        · exact g2 (Or.inr h)
        · exact g3 h
  · intro h
    rw [hs, if_pos h]
  · intro h1 h2 h3
    rw [hs, if_neg (by push_neg; exact ⟨h1, h2⟩), if_pos h3]
  · intro h1 h2 a b ha hb hlt
    rw [hs, if_neg (by push_neg; exact ⟨h1, h2⟩),
      if_neg (by rw [ha, hb]; simp), if_pos ⟨a, ha, hlt⟩]
  · intro hc
    push_neg at hc
    obtain ⟨c1, c2, c3, c4, c5⟩ := hc
    rw [hs, if_neg (by push_neg; exact ⟨c1, c2⟩), if_neg (by push_neg; exact ⟨c3, c4⟩),
      if_neg (by push_neg; exact c5)]

theorem C2_transfer_rejection_witness :
    (TransferHandler exStore ⟨none, some ⟨"A2", "A1", 250⟩⟩ "tx-2" 7).2.status = 402 ∧
    (TransferHandler exStore ⟨none, some ⟨"A2", "A1", 250⟩⟩ "tx-2" 7).2.status ≠ 200 :=
  have h := C2_transfer_rejection exStore ⟨none, some ⟨"A2", "A1", 250⟩⟩ "tx-2" 7
    ⟨"A2", "A1", 250⟩ rfl
  ⟨h.2.2.2.2.1 (by decide) (by decide) exA2 exA1 exStore_lookup_A2 exStore_lookup_A1
      (by decide),
    h.1.mpr (Or.inr (Or.inr (Or.inr (Or.inr ⟨exA2, exStore_lookup_A2, by decide⟩))))⟩

theorem transferResult_lookup (st : Storage) (req : TransferRequest) (a b : Account)
    (newID : String) (now : Time) (k : String) :
    (transferResult st req a b newID now).1.accounts.lookup k =
      if k = req.ToAccountID then some { b with Balance := b.Balance + req.Amount }
      else if k = req.FromAccountID then some { a with Balance := a.Balance - req.Amount }
      else st.accounts.lookup k := by
  simp only [transferResult]
  by_cases h1 : k = req.ToAccountID
  · subst h1
    rw [if_pos rfl, AList.lookup_insert]
  · rw [if_neg h1, AList.lookup_insert_ne h1]
    by_cases h2 : k = req.FromAccountID
    · subst h2
      rw [if_pos rfl, AList.lookup_insert]
    · rw [if_neg h2, AList.lookup_insert_ne h2]

/-- A call of `TransferHandler` either leaves the storage as it was or is an accepted
transfer. -/
theorem TransferHandler_cases (st : Storage) (r : Request TransferRequest) (newID : String)
    (now : Time) :
    (TransferHandler st r newID now).1 = st ∨
    ∃ req a b, req.FromAccountID ≠ req.ToAccountID ∧ 0 < req.Amount ∧
      st.accounts.lookup req.FromAccountID = some a ∧
      st.accounts.lookup req.ToAccountID = some b ∧ req.Amount ≤ a.Balance ∧
      TransferHandler st r newID now = transferResult st req a b newID now := by
  by_cases h : (TransferHandler st r newID now).2.status = 200
  · right
    cases hb : r.body with
    | none => simp [TransferHandler, hb, respondError, respondJSON] at h
    | some req =>
      rw [TransferHandler_status st r newID now req hb] at h
      by_cases h1 : req.FromAccountID = req.ToAccountID ∨ req.Amount ≤ 0
      · rw [if_pos h1] at h
        exact absurd h (by decide)
      · rw [if_neg h1] at h
        by_cases h2 : st.accounts.lookup req.FromAccountID = none
            ∨ st.accounts.lookup req.ToAccountID = none
        · rw [if_pos h2] at h
          exact absurd h (by decide)
        · rw [if_neg h2] at h
          by_cases h3 : ∃ a, st.accounts.lookup req.FromAccountID = some a
              ∧ a.Balance < req.Amount
          · rw [if_pos h3] at h
            exact absurd h (by decide)
          · push_neg at h1 h2 h3
            obtain ⟨a, ha⟩ := Option.ne_none_iff_exists'.mp h2.1
            obtain ⟨b, hb'⟩ := Option.ne_none_iff_exists'.mp h2.2
            exact ⟨req, a, b, h1.1, h1.2, ha, hb', h3 a ha,
              TransferHandler_accept st r newID now req a b hb h1.1 h1.2 ha hb' (h3 a ha)⟩
  · left
    exact TransferHandler_reject_unchanged st r newID now h

/-- C3: non-negative balances are an invariant of `TransferHandler`: from a store in which
every balance is >= 0, every request, accepted or rejected, leads to a store in which
every balance is >= 0. -/
theorem C3_transfer_keeps_balances_nonnegative (st : Storage) (r : Request TransferRequest)
    (newID : String) (now : Time) (h : nonNegative st.accounts) :
    nonNegative (TransferHandler st r newID now).1.accounts := by
  rcases TransferHandler_cases st r newID now with hc | ⟨req, a, b, _, hpos, ha, hb, hbal, hc⟩
  · rw [hc]
    exact h
  · rw [hc]
    intro k v hk
    rw [transferResult_lookup] at hk
    split_ifs at hk with h1 h2
    · cases hk
      have := h _ _ hb
      simp only
      linarith
    · cases hk
      simp only
      linarith
    · exact h k v hk

theorem exStore_nonNegative : nonNegative exStore.accounts := by
  intro k a hk
  have hmem : (⟨k, a⟩ : Sigma fun _ : String => Account) ∈ exStore.accounts.entries :=
    AList.mem_lookup_iff.mp hk
  have : (⟨k, a⟩ : Sigma fun _ : String => Account) = ⟨"A2", exA2⟩
      ∨ (⟨k, a⟩ : Sigma fun _ : String => Account) = ⟨"A1", exA1⟩ := by
    simpa [exStore, AList.insert_entries, AList.singleton] using hmem
  rcases this with h | h
  · cases h
    decide
  · cases h
    decide

theorem C3_transfer_keeps_balances_nonnegative_witness :
    nonNegative (TransferHandler exStore ⟨some "alice", some exTransfer⟩ "tx-3" 9).1.accounts :=
  C3_transfer_keeps_balances_nonnegative exStore ⟨some "alice", some exTransfer⟩ "tx-3" 9
    exStore_nonNegative

/-- C4: in a store with non-negative balances, for distinct existing accounts `ka`, `kb`
and an amount `x > 0` covered by the balance of `ka`, the transfer from `ka` to `kb`
followed by the transfer from `kb` to `ka` of the same amount succeeds twice and every
account (those two and all others) is stored as it was initially. -/
theorem C4_transfer_round_trip (st : Storage) (ka kb : String) (x : Decimal) (a b : Account)
    (u1 u2 : Option String) (id1 id2 : String) (t1 t2 : Time)
    (hnn : nonNegative st.accounts) (hne : ka ≠ kb) (hx : 0 < x)
    (ha : st.accounts.lookup ka = some a) (hb : st.accounts.lookup kb = some b)
    (hbal : x ≤ a.Balance) :
    (TransferHandler st ⟨u1, some ⟨ka, kb, x⟩⟩ id1 t1).2.status = 200 ∧
    (TransferHandler (TransferHandler st ⟨u1, some ⟨ka, kb, x⟩⟩ id1 t1).1
      ⟨u2, some ⟨kb, ka, x⟩⟩ id2 t2).2.status = 200 ∧
    ∀ k, (TransferHandler (TransferHandler st ⟨u1, some ⟨ka, kb, x⟩⟩ id1 t1).1
      ⟨u2, some ⟨kb, ka, x⟩⟩ id2 t2).1.accounts.lookup k = st.accounts.lookup k := by
  have e1 := TransferHandler_accept st ⟨u1, some ⟨ka, kb, x⟩⟩ id1 t1 ⟨ka, kb, x⟩ a b rfl hne hx
    ha hb hbal
  have hb0 : 0 ≤ b.Balance := hnn kb b hb
  have l1 := transferResult_lookup st ⟨ka, kb, x⟩ a b id1 t1
  have e2 := TransferHandler_accept (transferResult st ⟨ka, kb, x⟩ a b id1 t1).1
    ⟨u2, some ⟨kb, ka, x⟩⟩ id2 t2 ⟨kb, ka, x⟩ { b with Balance := b.Balance + x }
    { a with Balance := a.Balance - x } rfl (Ne.symm hne) hx
    (by rw [l1]; simp)
    (by rw [l1]; simp [hne])
    (by simp only; linarith)
  rw [e1, e2]
  refine ⟨rfl, rfl, ?_⟩
  intro k
  rw [transferResult_lookup, l1]
  simp only
  by_cases h1 : k = ka
  · subst h1
    simp [hne, ha]
  · by_cases h2 : k = kb
    · subst h2
      simp [h1, hb]
    · simp [h1, h2]

theorem C4_transfer_round_trip_witness :
    (TransferHandler exStore ⟨none, some ⟨"A1", "A2", 250⟩⟩ "i" 1).2.status = 200 ∧
    (TransferHandler (TransferHandler exStore ⟨none, some ⟨"A1", "A2", 250⟩⟩ "i" 1).1
      ⟨none, some ⟨"A2", "A1", 250⟩⟩ "j" 2).2.status = 200 ∧
    ∀ k, (TransferHandler (TransferHandler exStore ⟨none, some ⟨"A1", "A2", 250⟩⟩ "i" 1).1
      ⟨none, some ⟨"A2", "A1", 250⟩⟩ "j" 2).1.accounts.lookup k
        = exStore.accounts.lookup k :=
  C4_transfer_round_trip exStore "A1" "A2" 250 exA1 exA2 none none "i" "j" 1 2
    exStore_nonNegative (by decide) (by decide) exStore_lookup_A1 exStore_lookup_A2
    (by decide)

/-- C5 (the code at the failing input): the authenticated principal is "bob", the source
account "A1" belongs to "alice"; `TransferHandler` answers 200 and moves 250 out of
"A1" into "A2". -/
theorem C5_transfer_from_foreign_account_accepted :
    exA1.UserID = "alice" ∧
    (TransferHandler exStore ⟨some "bob", some ⟨"A1", "A2", 250⟩⟩ "tx-5" 11).2.status = 200 ∧
    ((TransferHandler exStore ⟨some "bob", some ⟨"A1", "A2", 250⟩⟩ "tx-5" 11).1.accounts.lookup
      "A1").map (fun a => a.Balance) = some 750 ∧
    ((TransferHandler exStore ⟨some "bob", some ⟨"A1", "A2", 250⟩⟩ "tx-5" 11).1.accounts.lookup
      "A2").map (fun a => a.Balance) = some 250 := by
  decide!

/-! ## Non-positive amounts -/

/-- C6: a request whose amount is zero or negative is answered with 400 by
`DepositHandler`, `TransferHandler`, `PayWithCardHandler` and `ApplyLoanHandler`, and the
storage is returned as it was (no balance update, no journal entry, no loan saved);
`ApplyLoanHandler` does the same when `term_months <= 0`. -/
theorem C6_nonpositive_amount_rejected (deps : Deps) (st : Storage) :
    (∀ (r : Request DepositRequest) (req : DepositRequest) (newID : String) (now : Time),
      r.body = some req → req.Amount ≤ 0 →
      (DepositHandler deps st r newID now).2.status = 400 ∧
      (DepositHandler deps st r newID now).1 = st) ∧
    (∀ (r : Request TransferRequest) (req : TransferRequest) (newID : String) (now : Time),
      r.body = some req → req.Amount ≤ 0 →
      (TransferHandler st r newID now).2.status = 400 ∧
      (TransferHandler st r newID now).1 = st) ∧
    (∀ (r : Request PaymentRequest) (req : PaymentRequest) (now now2 : Time)
      (newID : String), r.body = some req → req.Amount ≤ 0 →
      (PayWithCardHandler deps st r now now2 newID).2.status = 400 ∧
      (PayWithCardHandler deps st r now now2 newID).1 = st) ∧
    (∀ (r : Request ApplyLoanRequest) (req : ApplyLoanRequest)
      (keyRate : Except String Decimal) (startDate now : Time) (loanID txID : String),
      r.body = some req → (req.Amount ≤ 0 ∨ req.TermMonths ≤ 0) →
      (ApplyLoanHandler deps st r keyRate startDate now loanID txID).2.status = 400 ∧
      (ApplyLoanHandler deps st r keyRate startDate now loanID txID).1 = st) := by
  refine ⟨?_, ?_, ?_, ?_⟩
  · intro r req newID now hb ha
    unfold DepositHandler
    simp only [hb]
    rw [if_pos ha]
    exact ⟨rfl, rfl⟩
  · intro r req newID now hb ha
    have hs := TransferHandler_status st r newID now req hb
    rw [if_pos (Or.inr ha)] at hs
    refine ⟨hs, TransferHandler_reject_unchanged st r newID now ?_⟩
    rw [hs]
    decide
  · intro r req now now2 newID hb ha
    unfold PayWithCardHandler
    simp only [hb]
    rw [if_pos ha]
    exact ⟨rfl, rfl⟩
  · intro r req keyRate startDate now loanID txID hb ha
    unfold ApplyLoanHandler
    simp only [hb]
    rw [if_pos ha]
    exact ⟨rfl, rfl⟩

theorem C6_nonpositive_amount_rejected_witness :
    ((DepositHandler specDeps exStore ⟨some "alice", some ⟨"A1", 0⟩⟩ "d" 3).2.status = 400 ∧
      (DepositHandler specDeps exStore ⟨some "alice", some ⟨"A1", 0⟩⟩ "d" 3).1 = exStore) ∧
    ((TransferHandler exStore ⟨some "alice", some ⟨"A1", "A2", -5⟩⟩ "t" 3).2.status = 400 ∧
      (TransferHandler exStore ⟨some "alice", some ⟨"A1", "A2", -5⟩⟩ "t" 3).1 = exStore) ∧
    ((PayWithCardHandler specDeps exStore ⟨some "alice", some ⟨"c", "123", -1, "shop"⟩⟩ 3 4
        "p").2.status = 400 ∧
      (PayWithCardHandler specDeps exStore ⟨some "alice", some ⟨"c", "123", -1, "shop"⟩⟩ 3 4
        "p").1 = exStore) ∧
    ((ApplyLoanHandler specDeps exStore ⟨some "alice", some ⟨"alice", "A1", 1000, 0⟩⟩
        (Except.ok 10) 3 4 "l" "x").2.status = 400 ∧
      (ApplyLoanHandler specDeps exStore ⟨some "alice", some ⟨"alice", "A1", 1000, 0⟩⟩
        (Except.ok 10) 3 4 "l" "x").1 = exStore) :=
  have h := C6_nonpositive_amount_rejected specDeps exStore
  ⟨h.1 _ ⟨"A1", 0⟩ "d" 3 rfl (by decide),
    h.2.1 _ ⟨"A1", "A2", -5⟩ "t" 3 rfl (by decide),
    h.2.2.1 _ ⟨"c", "123", -1, "shop"⟩ 3 4 "p" rfl (by decide),
    h.2.2.2 _ ⟨"alice", "A1", 1000, 0⟩ (Except.ok 10) 3 4 "l" "x" rfl
      (Or.inr (by decide))⟩

/-! ## Luhn check digits and generated card numbers -/

theorem sprintfD_digit (d : Nat) (h : d < 10) : sprintfD d = [Fin.ofNat (48 + d)] := by
  interval_cases d <;> rfl

theorem luhnLoop_acc (l : List (Fin 256)) :
    ∀ (alt : Bool) (sum : Nat), luhnLoop l alt sum = sum + luhnLoop l alt 0 := by
  induction l with
  | nil => intro alt sum; simp [luhnLoop]
  | cons c rest ih =>
    intro alt sum
    simp only [luhnLoop]
    rw [ih (!alt) (sum + luhnDigit c alt), ih (!alt) (0 + luhnDigit c alt)]
    omega

theorem luhnDigit_digit (d : Nat) (h : d < 10) :
    luhnDigit (Fin.ofNat (48 + d)) false = d := by
  interval_cases d <;> rfl

/-- Appending the computed check digit to any string gives a string that passes the Luhn
validation. -/
theorem validate_append_checkDigit (number : GoString) :
    ValidateCardNumberLuhn (number ++ sprintfD (calculateLuhnCheckDigit number)) = true := by
  have hlt : calculateLuhnCheckDigit number < 10 := by
    unfold calculateLuhnCheckDigit
    simp only
    split_ifs <;> omega
  rw [sprintfD_digit _ hlt]
  unfold ValidateCardNumberLuhn
  rw [List.reverse_append, List.reverse_singleton, List.singleton_append]
  simp only [luhnLoop, Bool.not_false]
  rw [luhnLoop_acc, luhnDigit_digit _ hlt]
  unfold calculateLuhnCheckDigit
  simp only [beq_iff_eq]
  split_ifs <;> omega

theorem fillDigits_spec (draws : Nat → Nat) (hd : ∀ i, draws i < 10) :
    ∀ (k : Nat) (number : GoString) (pos : Nat), number.length + k = 15 →
      ∃ suffix : GoString, (fillDigits draws k number pos).1 = number ++ suffix ∧
        suffix.length = k ∧ allDigits suffix := by
  intro k
  induction k with
  | zero =>
    intro number pos _
    exact ⟨[], by simp [fillDigits], rfl, by intro c hc; simp at hc⟩
  | succ k ih =>
    intro number pos hlen
    unfold fillDigits
    rw [if_pos (by omega), sprintfD_digit _ (hd pos)]
    obtain ⟨suffix, h1, h2, h3⟩ := ih (number ++ [Fin.ofNat (48 + draws pos)]) (pos + 1)
      (by simp only [List.length_append, List.length_singleton]; omega)
    refine ⟨Fin.ofNat (48 + draws pos) :: suffix, ?_, ?_, ?_⟩
    · rw [h1]
      simp
    · simp [h2]
    · intro c hc
      rcases List.mem_cons.mp hc with hc | hc
      · subst hc
        have := hd pos
        interval_cases (draws pos) <;> decide
      · exact h3 c hc

/-- C7: whatever the random draws (each a digit 0..9), `GenerateValidCardNumber` returns in
its first iteration a string of exactly 16 decimal digits whose first digit is '4' and on
which `ValidateCardNumberLuhn` is true. -/
theorem C7_generated_card_number_valid (draws : Nat → Nat) (hd : ∀ i, draws i < 10)
    (fuel pos : Nat) (hf : 0 < fuel) :
    ∃ s : GoString, GenerateValidCardNumber draws fuel pos = some s ∧ s.length = 16 ∧
      allDigits s ∧ s.head? = some 52 ∧ ValidateCardNumberLuhn s = true := by
  obtain ⟨n, rfl⟩ : ∃ n, fuel = n + 1 := ⟨fuel - 1, by omega⟩
  obtain ⟨suffix, h1, h2, h3⟩ := fillDigits_spec draws hd 14 [52] pos rfl
  have hlt : calculateLuhnCheckDigit ([52] ++ suffix) < 10 := by
    unfold calculateLuhnCheckDigit
    simp only
    split_ifs <;> omega
  refine ⟨[52] ++ suffix ++ sprintfD (calculateLuhnCheckDigit ([52] ++ suffix)), ?_, ?_, ?_,
    ?_, validate_append_checkDigit _⟩
  · unfold GenerateValidCardNumber
    simp only [h1]
    rw [if_pos (validate_append_checkDigit _)]
  · rw [sprintfD_digit _ hlt]
    simp [h2]
  · rw [sprintfD_digit _ hlt]
    intro c hc
    simp only [List.mem_append, List.mem_singleton] at hc
    rcases hc with (hc | hc) | hc
    · subst hc
      decide
    · exact h3 c hc
    · subst hc
      interval_cases (calculateLuhnCheckDigit ([52] ++ suffix)) <;> decide
  · rfl

theorem C7_generated_card_number_valid_witness :
    ∃ s : GoString, GenerateValidCardNumber (fun i => (i * 7 + 3) % 10) 1 0 = some s ∧
      s.length = 16 ∧ allDigits s ∧ s.head? = some 52 ∧ ValidateCardNumberLuhn s = true :=
  C7_generated_card_number_valid (fun i => (i * 7 + 3) % 10)
    (fun i => Nat.mod_lt _ (by decide)) 1 0 (by decide)

/-! ## The payment schedule -/

theorem scheduleLoop_principal_sum (monthlyRate : Decimal) (termMonths : Int)
    (startDate : Time) :
    ∀ (k : Nat) (i : Int) (remaining monthlyPayment : Decimal), 0 < k →
      i + k = termMonths →
      ((scheduleLoop monthlyRate termMonths startDate k i remaining monthlyPayment).map
        (fun p => p.PrincipalPart)).sum = remaining := by
  intro k
  induction k with
  | zero => intro i remaining monthlyPayment hk; exact absurd hk (by decide)
  | succ k ih =>
    intro i remaining monthlyPayment _ hik
    unfold scheduleLoop
    simp only
    by_cases hlast : i = termMonths - 1
        ∨ remaining - (monthlyPayment - RoundBank (remaining * monthlyRate) 2) ≤ 0
    · simp only [if_pos hlast, sub_self, le_refl, if_true, List.map_cons, List.map_nil,
        List.sum_cons, List.sum_nil, add_zero]
    · simp only [if_neg hlast]
      have hpos : ¬ remaining - (monthlyPayment - RoundBank (remaining * monthlyRate) 2) ≤ 0 :=
        fun h => hlast (Or.inr h)
      rw [if_neg hpos]
      have hk : 0 < k := by
        rcases Nat.eq_zero_or_pos k with h0 | h0
        · exfalso
          apply hlast
          left
          subst h0
          push_cast at hik
          omega
        · exact h0
      simp only [List.map_cons, List.sum_cons]
      rw [ih (i + 1) _ _ hk (by push_cast at hik ⊢; omega)]
      ring

/-- C8: for every loan amount, rate, start date and monthly payment and every
`termMonths >= 1`, the principal parts of the schedule returned by
`GeneratePaymentSchedule` add up to exactly the loan amount. -/
theorem C8_schedule_principal_sum (loanAmount annualRate : Decimal) (termMonths : Int)
    (startDate : Time) (monthlyPayment : Decimal) (h : 1 ≤ termMonths) :
    ((GeneratePaymentSchedule loanAmount annualRate termMonths startDate monthlyPayment).map
      (fun p => p.PrincipalPart)).sum = loanAmount := by
  unfold GeneratePaymentSchedule
  apply scheduleLoop_principal_sum
  · omega
  · rw [Int.toNat_of_nonneg (by omega)]
    ring

theorem C8_schedule_principal_sum_witness :
    ((GeneratePaymentSchedule 120000 15 12 0 (CalculateMonthlyPayment 120000 15 12)).map
      (fun p => p.PrincipalPart)).sum = 120000 :=
  C8_schedule_principal_sum 120000 15 12 0 (CalculateMonthlyPayment 120000 15 12) (by decide)

/-! ## The monthly payment -/

theorem pow10_pos (p : Nat) : (0 : ℚ) < 10 ^ p := by positivity

/-- Bounds on the rounded integer, in units of the last place. -/
theorem roundUnits_bounds (x : Decimal) (p : Nat) :
    (0 ≤ x → 0 ≤ roundUnits x p ∧ (roundUnits x p : ℚ) - 1 / 2 ≤ x * 10 ^ p
      ∧ x * 10 ^ p < (roundUnits x p : ℚ) + 1 / 2) ∧
    (x < 0 → roundUnits x p ≤ 0 ∧ (roundUnits x p : ℚ) - 1 / 2 < x * 10 ^ p
      ∧ x * 10 ^ p ≤ (roundUnits x p : ℚ) + 1 / 2) := by
  have hT := pow10_pos p
  constructor
  · intro hx
    unfold roundUnits
    rw [if_pos hx]
    have h1 := Int.floor_le (x * 10 ^ p + 1 / 2)
    have h2 := Int.lt_floor_add_one (x * 10 ^ p + 1 / 2)
    refine ⟨Int.floor_nonneg.mpr (by positivity), by linarith, by linarith⟩
  · intro hx
    unfold roundUnits
    rw [if_neg (not_le.mpr hx)]
    have h1 := Int.floor_le (-x * 10 ^ p + 1 / 2)
    have h2 := Int.lt_floor_add_one (-x * 10 ^ p + 1 / 2)
    have h3 : 0 ≤ ⌊-x * 10 ^ p + 1 / 2⌋ :=
      Int.floor_nonneg.mpr (by nlinarith)
    push_cast
    refine ⟨by omega, by linarith, by linarith⟩

theorem roundUnits_near (x : Decimal) (p : Nat) :
    |(roundUnits x p : ℚ) - x * 10 ^ p| ≤ 1 / 2 := by
  rw [abs_le]
  rcases le_or_lt 0 x with hx | hx
  · obtain ⟨_, h1, h2⟩ := (roundUnits_bounds x p).1 hx
    constructor <;> linarith
  · obtain ⟨_, h1, h2⟩ := (roundUnits_bounds x p).2 hx
    constructor <;> linarith

/-- From a distance in units of the last place to a distance between decimals. -/
theorem units_near (v : Int) (x : Decimal) (p : Nat)
    (h : |(v : ℚ) - x * 10 ^ p| ≤ 1 / 2) : |(v : ℚ) / 10 ^ p - x| ≤ 1 / (2 * 10 ^ p) := by
  have hT := pow10_pos p
  have e : (v : ℚ) / 10 ^ p - x = ((v : ℚ) - x * 10 ^ p) / 10 ^ p := by
    field_simp
    ring
  rw [e, abs_div, abs_of_pos hT]
  calc |(v : ℚ) - x * 10 ^ p| / 10 ^ p ≤ 1 / 2 / 10 ^ p :=
        div_le_div_of_nonneg_right h hT.le
    _ = 1 / (2 * 10 ^ p) := by rw [div_div]

/-- The function `Round` moves a value by at most half a unit of the last place. -/
theorem Round_near (x : Decimal) (p : Nat) : |Round x p - x| ≤ 1 / (2 * 10 ^ p) :=
  units_near _ x p (roundUnits_near x p)

/-- The function `RoundBank` moves a value by at most half a unit of the last place. -/
theorem RoundBank_near (x : Decimal) (p : Nat) : |RoundBank x p - x| ≤ 1 / (2 * 10 ^ p) := by
  have hT := pow10_pos p
  unfold RoundBank
  simp only
  split_ifs with ht hneg
  · apply units_near
    have htie : |x * 10 ^ p - (roundUnits x p : ℚ)| = 1 / 2 := by
      have h1 := ht.1
      unfold Round at h1
      have e : x * 10 ^ p - (roundUnits x p : ℚ)
          = (x - (roundUnits x p : ℚ) / 10 ^ p) * 10 ^ p := by
        field_simp
      rw [e, abs_mul, h1, abs_of_pos hT, pow_succ]
      field_simp
      ring
    rcases le_or_lt 0 x with hx | hx
    · obtain ⟨h0, _, _⟩ := (roundUnits_bounds x p).1 hx
      omega
    · obtain ⟨_, h1, h2⟩ := (roundUnits_bounds x p).2 hx
      have : x * 10 ^ p - (roundUnits x p : ℚ) = 1 / 2 := by
        rcases abs_eq (by norm_num : (0 : ℚ) ≤ 1 / 2) |>.mp htie with h | h
        · exact h
        · linarith
      push_cast
      rw [abs_le]
      constructor <;> linarith
  · apply units_near
    have htie : |x * 10 ^ p - (roundUnits x p : ℚ)| = 1 / 2 := by
      have h1 := ht.1
      unfold Round at h1
      have e : x * 10 ^ p - (roundUnits x p : ℚ)
          = (x - (roundUnits x p : ℚ) / 10 ^ p) * 10 ^ p := by
        field_simp
      rw [e, abs_mul, h1, abs_of_pos hT, pow_succ]
      field_simp
      ring
    rcases le_or_lt 0 x with hx | hx
    · obtain ⟨_, h1, h2⟩ := (roundUnits_bounds x p).1 hx
      have : x * 10 ^ p - (roundUnits x p : ℚ) = -(1 / 2) := by
        rcases abs_eq (by norm_num : (0 : ℚ) ≤ 1 / 2) |>.mp htie with h | h
        · linarith
        · exact h
      push_cast
      rw [abs_le]
      constructor <;> linarith
    · obtain ⟨_, h1, h2⟩ := (roundUnits_bounds x p).2 hx
      have h3 : x * 10 ^ p - (roundUnits x p : ℚ) = 1 / 2 := by
        rcases abs_eq (by norm_num : (0 : ℚ) ≤ 1 / 2) |>.mp htie with h | h
        · exact h
        · linarith
      exfalso
      have h4 : (0 : ℚ) ≤ (roundUnits x p : ℚ) := by
        exact_mod_cast (not_lt.mp hneg)
      have h5 : x * 10 ^ p < 0 := by nlinarith
      linarith
  · exact Round_near x p

theorem roundUnits_eq_floor (x : Decimal) (p : Nat) :
    roundUnits x p =
      if 0 ≤ x then
        (if x * 10 ^ p - ⌊x * 10 ^ p⌋ < 1 / 2 then ⌊x * 10 ^ p⌋ else ⌊x * 10 ^ p⌋ + 1)
      else
        (if x * 10 ^ p - ⌊x * 10 ^ p⌋ ≤ 1 / 2 then ⌊x * 10 ^ p⌋ else ⌊x * 10 ^ p⌋ + 1) := by
  have hf1 := Int.floor_le (x * 10 ^ p)
  have hf2 := Int.lt_floor_add_one (x * 10 ^ p)
  unfold roundUnits
  split_ifs with h1 h2 h3
  · rw [Int.floor_eq_iff]
    constructor <;> linarith
  · rw [Int.floor_eq_iff]
    push_cast
    constructor <;> linarith
  · rw [neg_eq_iff_eq_neg, Int.floor_eq_iff, neg_mul]
    push_cast
    constructor <;> linarith
  · rw [neg_eq_iff_eq_neg, Int.floor_eq_iff, neg_mul]
    push_cast
    constructor <;> linarith

/-- The function `RoundBank` to two places is rounding to the nearest hundredth with ties to the even
neighbour. -/
theorem RoundBank_two_eq_spec (x : Decimal) : RoundBank x 2 = specBankersRound2 x := by
  have hf1 := Int.floor_le (x * 100)
  have hf2 := Int.lt_floor_add_one (x * 100)
  have hu := roundUnits_eq_floor x 2
  have e100 : (10 : ℚ) ^ 2 = 100 := by norm_num
  have e1000 : (5 : ℚ) / 10 ^ (2 + 1) = 1 / 200 := by norm_num
  rw [e100] at hu
  unfold RoundBank Round specBankersRound2
  simp only [e100, e1000]
  generalize hfr : x * 100 - (⌊x * 100⌋ : ℚ) = fr at *
  generalize hf : ⌊x * 100⌋ = f at *
  have hx : x = ((f : ℚ) + fr) / 100 := by
    rw [← hfr]
    ring
  have hA : ∀ u : Int, roundUnits x 2 = u → |x - (u : ℚ) / 100| ≠ 1 / 200 →
      (if |x - ((roundUnits x 2 : Int) : ℚ) / 100| = 1 / 200 ∧ roundUnits x 2 % 2 ≠ 0 then
        if roundUnits x 2 < 0 then ((roundUnits x 2 + 1 : Int) : ℚ) / 100
        else ((roundUnits x 2 - 1 : Int) : ℚ) / 100
      else ((roundUnits x 2 : Int) : ℚ) / 100) = (u : ℚ) / 100 := by
    intro u h1 h2
    rw [h1, if_neg (fun h => h2 h.1)]
  have hB : ∀ u : Int, roundUnits x 2 = u → u % 2 = 0 →
      (if |x - ((roundUnits x 2 : Int) : ℚ) / 100| = 1 / 200 ∧ roundUnits x 2 % 2 ≠ 0 then
        if roundUnits x 2 < 0 then ((roundUnits x 2 + 1 : Int) : ℚ) / 100
        else ((roundUnits x 2 - 1 : Int) : ℚ) / 100
      else ((roundUnits x 2 : Int) : ℚ) / 100) = (u : ℚ) / 100 := by
    intro u h1 h2
    rw [h1, if_neg (fun h => h.2 h2)]
  have hC : ∀ u : Int, roundUnits x 2 = u → |x - (u : ℚ) / 100| = 1 / 200 → u % 2 ≠ 0 →
      (if |x - ((roundUnits x 2 : Int) : ℚ) / 100| = 1 / 200 ∧ roundUnits x 2 % 2 ≠ 0 then
        if roundUnits x 2 < 0 then ((roundUnits x 2 + 1 : Int) : ℚ) / 100
        else ((roundUnits x 2 - 1 : Int) : ℚ) / 100
      else ((roundUnits x 2 : Int) : ℚ) / 100)
        = if u < 0 then ((u + 1 : Int) : ℚ) / 100 else ((u - 1 : Int) : ℚ) / 100 := by
    intro u h1 h2 h3
    rw [h1, if_pos ⟨h2, h3⟩]
  have hS1 : fr < 1 / 2 →
      (if fr < 1 / 2 then (f : ℚ) / 100
        else if 1 / 2 < fr then ((f + 1 : Int) : ℚ) / 100
        else if f % 2 = 0 then (f : ℚ) / 100 else ((f + 1 : Int) : ℚ) / 100)
        = (f : ℚ) / 100 := fun h => if_pos h
  have hS2 : 1 / 2 < fr →
      (if fr < 1 / 2 then (f : ℚ) / 100
        else if 1 / 2 < fr then ((f + 1 : Int) : ℚ) / 100
        else if f % 2 = 0 then (f : ℚ) / 100 else ((f + 1 : Int) : ℚ) / 100)
        = ((f + 1 : Int) : ℚ) / 100 := by
    intro h
    rw [if_neg (not_lt.mpr h.le), if_pos h]
  have hS3 : fr = 1 / 2 →
      (if fr < 1 / 2 then (f : ℚ) / 100
        else if 1 / 2 < fr then ((f + 1 : Int) : ℚ) / 100
        else if f % 2 = 0 then (f : ℚ) / 100 else ((f + 1 : Int) : ℚ) / 100)
        = if f % 2 = 0 then (f : ℚ) / 100 else ((f + 1 : Int) : ℚ) / 100 := by
    intro h
    rw [if_neg (not_lt.mpr h.ge), if_neg (not_lt.mpr h.le)]
  have hd0 : |x - (f : ℚ) / 100| = |fr| / 100 := by
    rw [hx, show ((f : ℚ) + fr) / 100 - (f : ℚ) / 100 = fr / 100 by ring, abs_div]
    norm_num
  have hd1 : |x - ((f + 1 : Int) : ℚ) / 100| = |1 - fr| / 100 := by
    rw [hx]
    push_cast
    rw [show ((f : ℚ) + fr) / 100 - ((f : ℚ) + 1) / 100 = -((1 - fr) / 100) by ring,
      abs_neg, abs_div]
    norm_num
  have hfr0 : 0 ≤ fr := by linarith
  have hfr1 : fr < 1 := by linarith
  rw [abs_of_nonneg hfr0] at hd0
  rw [abs_of_nonneg (show (0 : ℚ) ≤ 1 - fr by linarith)] at hd1
  rcases le_or_lt 0 x with h0 | h0
  · rw [if_pos h0] at hu
    have hfnn : 0 ≤ f := by
      rw [← hf]
      exact Int.floor_nonneg.mpr (by positivity)
    rcases lt_trichotomy fr (1 / 2) with hlt | heq | hgt
    · rw [if_pos hlt] at hu
      rw [hA f hu (by rw [hd0]; intro h; linarith), hS1 hlt]
    · rw [if_neg (not_lt.mpr heq.ge)] at hu
      rw [hS3 heq]
      rcases Int.emod_two_eq_zero_or_one f with hev | hod
      · rw [hC (f + 1) hu (by rw [hd1, heq]; norm_num) (by omega), if_neg (by omega),
          if_pos hev]
        congr 1
        push_cast
        ring
      · rw [hB (f + 1) hu (by omega), if_neg (by omega)]
    · rw [if_neg (not_lt.mpr hgt.le)] at hu
      rw [hA (f + 1) hu (by rw [hd1]; intro h; linarith), hS2 hgt]
  · rw [if_neg (not_le.mpr h0)] at hu
    have hfneg : f < 0 := by
      have : (f : ℚ) < 0 := by linarith
      exact_mod_cast this
    rcases lt_trichotomy fr (1 / 2) with hlt | heq | hgt
    · rw [if_pos hlt.le] at hu
      rw [hA f hu (by rw [hd0]; intro h; linarith), hS1 hlt]
    · rw [if_pos heq.le] at hu
      rw [hS3 heq]
      rcases Int.emod_two_eq_zero_or_one f with hev | hod
      · rw [hB f hu hev, if_pos hev]
      · rw [hC f hu (by rw [hd0, heq]; norm_num) (by omega), if_pos hfneg, if_neg (by omega)]
    · rw [if_neg (not_le.mpr hgt)] at hu
      rw [hA (f + 1) hu (by rw [hd1]; intro h; linarith), hS2 hgt]

/-- The function `Div` moves the exact quotient by at most half a unit of the 16th fractional digit. -/
theorem Div_near (a b : Decimal) : |Div a b - a / b| ≤ 1 / (2 * 10 ^ 16) :=
  Round_near (a / b) 16

/-- C10 (counterexample): principal 1.80, rate 10%, one month.  The exact formula gives
1.815, which banker's rounding takes to 1.82; the code works with the monthly rate
0.0083333333333333 (two divisions rounded to 16 digits), gets 1.81499999999999994 and
returns 1.81. -/
theorem C10_monthly_payment_counterexample :
    (0 : Int) < 1 ∧ (10 : ℚ) / 12 / 100 ≠ 0 ∧
    CalculateMonthlyPayment (9 / 5) 10 1 = 181 / 100 ∧
    specMonthlyPayment (9 / 5) 10 1 = 182 / 100 ∧
    CalculateMonthlyPayment (9 / 5) 10 1 ≠ specMonthlyPayment (9 / 5) 10 1 := by
  decide!

/-- C10 (amended): let `i` be the monthly rate as the code computes it, `r / 12` rounded to
16 fractional digits, divided by 100 and rounded to 16 digits again.  For
`0 < n ≤ 134217727` (the terms for which the decimal exponents of `(1+i)^n` and of
`i · (1+i)^n` fit the library's `int32`), `i ≠ 0` and `(1+i)^n ≠ 1`, `CalculateMonthlyPayment P r n` is `P · q` rounded to two fractional
digits with banker's (half-to-even) rounding, where `q` is `(i · (1+i)^n) / ((1+i)^n − 1)`
rounded half away from zero to 16 fractional digits; it is therefore within
`0.005 + |P| · 5 · 10⁻¹⁷` of `P · (i · (1+i)^n) / ((1+i)^n − 1)`. -/
theorem C10_monthly_payment (P r : Decimal) (n : Int) (hn : 0 < n)
    (_hmax : n ≤ 134217727) (hi : Div (Div r 12) 100 ≠ 0)
    (hden : (1 + Div (Div r 12) 100) ^ n.toNat - 1 ≠ 0) :
    CalculateMonthlyPayment P r n
      = specBankersRound2 (P * Div (Div (Div r 12) 100 * (1 + Div (Div r 12) 100) ^ n.toNat)
          ((1 + Div (Div r 12) 100) ^ n.toNat - 1)) ∧
    |CalculateMonthlyPayment P r n
      - P * (Div (Div r 12) 100 * (1 + Div (Div r 12) 100) ^ n.toNat)
          / ((1 + Div (Div r 12) 100) ^ n.toNat - 1)|
      ≤ 1 / 200 + |P| / (2 * 10 ^ 16) := by
  have hcode : CalculateMonthlyPayment P r n
      = RoundBank (P * Div (Div (Div r 12) 100 * (1 + Div (Div r 12) 100) ^ n.toNat)
          ((1 + Div (Div r 12) 100) ^ n.toNat - 1)) 2 := by
    unfold CalculateMonthlyPayment
    rw [if_neg (not_le.mpr hn)]
    simp only
    rw [if_neg hi, if_neg hden]
  refine ⟨by rw [hcode, RoundBank_two_eq_spec], ?_⟩
  rw [hcode]
  set i := Div (Div r 12) 100 with hidef
  set num := i * (1 + i) ^ n.toNat with hnum
  set den := (1 + i) ^ n.toNat - 1 with hdendef
  have h1 := RoundBank_near (P * Div num den) 2
  have h2 := Div_near num den
  have h3 : |P * Div num den - P * num / den| ≤ |P| / (2 * 10 ^ 16) := by
    have e : P * Div num den - P * num / den = P * (Div num den - num / den) := by ring
    rw [e, abs_mul]
    calc |P| * |Div num den - num / den| ≤ |P| * (1 / (2 * 10 ^ 16)) :=
          mul_le_mul_of_nonneg_left h2 (abs_nonneg P)
      _ = |P| / (2 * 10 ^ 16) := by ring
  have h4 : (1 : ℚ) / (2 * 10 ^ 2) = 1 / 200 := by norm_num
  rw [h4] at h1
  calc |RoundBank (P * Div num den) 2 - P * num / den|
      = |(RoundBank (P * Div num den) 2 - P * Div num den)
          + (P * Div num den - P * num / den)| := by ring_nf
    _ ≤ |RoundBank (P * Div num den) 2 - P * Div num den|
          + |P * Div num den - P * num / den| := abs_add _ _
    _ ≤ 1 / 200 + |P| / (2 * 10 ^ 16) := add_le_add h1 h3

theorem C10_monthly_payment_witness :
    CalculateMonthlyPayment 120000 15 12
      = specBankersRound2 (120000 * Div (Div (Div 15 12) 100 * (1 + Div (Div 15 12) 100) ^ 12)
          ((1 + Div (Div 15 12) 100) ^ 12 - 1)) ∧
    |CalculateMonthlyPayment 120000 15 12
      - 120000 * (Div (Div 15 12) 100 * (1 + Div (Div 15 12) 100) ^ 12)
          / ((1 + Div (Div 15 12) 100) ^ 12 - 1)|
      ≤ 1 / 200 + |(120000 : ℚ)| / (2 * 10 ^ 16) :=
  C10_monthly_payment 120000 15 12 (by decide) (by decide) (by decide!) (by decide!)


/-! ## The number of installments -/

/-- A value that already has at most `p` fractional digits is left alone by `Round`. -/
theorem roundUnits_of_units (k : Int) (p : Nat) : roundUnits ((k : ℚ) / 10 ^ p) p = k := by
  have hT := pow10_pos p
  have e : (k : ℚ) / 10 ^ p * 10 ^ p = k := by field_simp
  unfold roundUnits
  split_ifs with h
  · rw [e, Int.floor_eq_iff]
    constructor <;> linarith
  · rw [neg_mul, e, neg_eq_iff_eq_neg, Int.floor_eq_iff]
    push_cast
    constructor <;> linarith

theorem Round_of_units (k : Int) (p : Nat) : Round ((k : ℚ) / 10 ^ p) p = (k : ℚ) / 10 ^ p := by
  unfold Round
  rw [roundUnits_of_units]

theorem Div_zero_left (b : Decimal) : Div 0 b = 0 := by
  have h := Round_of_units 0 16
  simp only [Int.cast_zero, zero_div] at h
  unfold Div
  rw [zero_div]
  exact h

/-- With annual rate 0 and a positive term the code takes the zero-rate branch. -/
theorem CalculateMonthlyPayment_zero_rate (P : Decimal) (n : Int) (hn : 0 < n) :
    CalculateMonthlyPayment P 0 n = Div P n := by
  unfold CalculateMonthlyPayment
  rw [if_neg (not_le.mpr hn)]
  simp only [Div_zero_left]
  rw [if_pos trivial]

/-- C11 (counterexample): principal 100, rate 0, three months: the code returns
33.3333333333333333 (16 fractional digits), which is not 100 / 3. -/
theorem C11_zero_rate_payment_counterexample :
    (0 : Int) < 3 ∧ CalculateMonthlyPayment 100 0 3 = 333333333333333333 / 10 ^ 16 ∧
    CalculateMonthlyPayment 100 0 3 ≠ 100 / 3 := by
  decide!

/-- C11 (amended): for every principal `P` and every term `n > 0` such that `P / n` has at
most two fractional digits (it is `k / 100` for an integer `k`),
`CalculateMonthlyPayment P 0 n` equals `P / n`. -/
theorem C11_zero_rate_payment (P : Decimal) (n : Int) (hn : 0 < n)
    (h2 : ∃ k : Int, P / n = (k : ℚ) / 100) :
    CalculateMonthlyPayment P 0 n = P / n := by
  obtain ⟨k, hk⟩ := h2
  have hk16 : P / n = ((k * 10 ^ 14 : Int) : ℚ) / 10 ^ 16 := by
    rw [hk]
    push_cast
    rw [div_eq_div_iff (by norm_num) (by norm_num)]
    ring
  rw [CalculateMonthlyPayment_zero_rate P n hn]
  unfold Div
  rw [hk16, Round_of_units]

theorem C11_zero_rate_payment_witness :
    CalculateMonthlyPayment 100 0 8 = 100 / ((8 : Int) : ℚ) ∧
    (100 : ℚ) / ((8 : Int) : ℚ) = 1250 / 100 :=
  ⟨C11_zero_rate_payment 100 8 (by decide) ⟨1250, by norm_num⟩, by norm_num⟩

/-- C12 (counterexample): the code does not return 10838.57 for 120000 at 15% over 12
months. -/
theorem C12_example_payment_counterexample :
    CalculateMonthlyPayment 120000 15 12 ≠ 1083857 / 100 := by
  decide!

/-- C12 (amended): `CalculateMonthlyPayment 120000 15 12` equals 10831.00, and so does the
exact value of `120000 · 0.0125 · 1.0125^12 / (1.0125^12 − 1)` rounded to two places with
banker's rounding. -/
theorem C12_example_payment :
    CalculateMonthlyPayment 120000 15 12 = 10831 ∧
    specMonthlyPayment 120000 15 12 = 10831 ∧
    (15 : ℚ) / 12 / 100 = 125 / 10000 := by
  decide!

/-- The value of `RoundBank` is a whole number of units of the last place. -/
theorem RoundBank_units (x : Decimal) (p : Nat) :
    ∃ v : Int, RoundBank x p = (v : ℚ) / 10 ^ p := by
  unfold RoundBank Round
  simp only
  split_ifs
  · exact ⟨_, rfl⟩
  · exact ⟨_, rfl⟩
  · exact ⟨_, rfl⟩

/-- A value with at most `p` fractional digits is left alone by `RoundBank`. -/
theorem RoundBank_of_units (k : Int) (p : Nat) :
    RoundBank ((k : ℚ) / 10 ^ p) p = (k : ℚ) / 10 ^ p := by
  have hT := pow10_pos p
  unfold RoundBank
  simp only
  rw [Round_of_units, sub_self, abs_zero]
  rw [if_neg]
  intro h
  have h5 : (0 : ℚ) < 5 / 10 ^ (p + 1) := by positivity
  rw [← h.1] at h5
  exact lt_irrefl _ h5

/-- Outside the zero-rate branch the result of `CalculateMonthlyPayment` has at most two
fractional digits: rounding it again to two places changes nothing. -/
theorem CalculateMonthlyPayment_two_places (P r : Decimal) (n : Int)
    (h : n ≤ 0 ∨ Div (Div r 12) 100 ≠ 0) :
    RoundBank (CalculateMonthlyPayment P r n) 2 = CalculateMonthlyPayment P r n := by
  have h0 : RoundBank 0 2 = 0 := by
    have := RoundBank_of_units 0 2
    simpa using this
  unfold CalculateMonthlyPayment
  by_cases hn : n ≤ 0
  · rw [if_pos hn]
    exact h0
  · rw [if_neg hn]
    have hr : Div (Div r 12) 100 ≠ 0 := by
      rcases h with h | h
      · exact absurd h hn
      · exact h
    simp only
    rw [if_neg hr]
    split_ifs
    · exact h0
    · obtain ⟨v, hv⟩ := RoundBank_units
        (P * Div (Div (Div r 12) 100 * (1 + Div (Div r 12) 100) ^ n.toNat)
          ((1 + Div (Div r 12) 100) ^ n.toNat - 1)) 2
      rw [hv, RoundBank_of_units]

/-- C13 (the code at the failing input): principal 100.00, rate 0, three months.  The
zero-rate branch returns 33.3333333333333333, which is not a two-places amount: its
banker's rounding to two places is 33.33. -/
theorem C13_zero_rate_payment_not_two_places :
    RoundBank 100 2 = 100 ∧
    CalculateMonthlyPayment 100 0 3 = 333333333333333333 / 10 ^ 16 ∧
    RoundBank (CalculateMonthlyPayment 100 0 3) 2 = 3333 / 100 ∧
    RoundBank (CalculateMonthlyPayment 100 0 3) 2 ≠ CalculateMonthlyPayment 100 0 3 := by
  decide!


/-! ## Masked card numbers -/

/-- C19: for every card number of length at least 4 (bytes, as Go counts), `maskCardNumber`
returns the 15 bytes of the literal "**** **** **** " (four stars and a space, three times;
a star is byte 42 and a space byte 32) followed by the last four bytes of the input, 19
bytes in all, so two inputs with the same last four bytes have the same mask. -/
theorem C19_mask_card_number (number : GoString) (h : 4 ≤ number.length) :
    maskCardNumber number
      = asciiBytes "**** **** **** " ++ number.drop (number.length - 4) ∧
    maskCardNumber number
      = [42, 42, 42, 42, 32, 42, 42, 42, 42, 32, 42, 42, 42, 42, 32]
          ++ number.drop (number.length - 4) ∧
    (('*').toNat = 42 ∧ (' ').toNat = 32) ∧
    (number.drop (number.length - 4)).length = 4 ∧
    (maskCardNumber number).length = 19 ∧
    (∀ other : GoString, 4 ≤ other.length →
      other.drop (other.length - 4) = number.drop (number.length - 4) →
      maskCardNumber other = maskCardNumber number) := by
  have hm : ∀ s : GoString, 4 ≤ s.length →
      maskCardNumber s = maskPrefix ++ s.drop (s.length - 4) := by
    intro s hs
    unfold maskCardNumber
    rw [if_neg (by omega)]
  have hp : maskPrefix = asciiBytes "**** **** **** " := by decide
  have hq : maskPrefix = [42, 42, 42, 42, 32, 42, 42, 42, 42, 32, 42, 42, 42, 42, 32] := rfl
  have hl : (number.drop (number.length - 4)).length = 4 := by
    rw [List.length_drop]
    omega
  refine ⟨by rw [hm number h, hp], by rw [hm number h, hq], ⟨by decide, by decide⟩, hl, ?_, ?_⟩
  · rw [hm number h, List.length_append, hl]
    rfl
  · intro other ho he
    rw [hm other ho, hm number h, he]

theorem C19_mask_card_number_witness :
    maskCardNumber (asciiBytes "4539578763621486") = asciiBytes "**** **** **** 1486" ∧
    (maskCardNumber (asciiBytes "4539578763621486")).length = 19 :=
  have h := C19_mask_card_number (asciiBytes "4539578763621486") (by decide)
  ⟨h.1.trans (by decide), h.2.2.2.2.1⟩

/-! ## The check digit is the only valid last digit -/

theorem calculateLuhnCheckDigit_lt (s : GoString) : calculateLuhnCheckDigit s < 10 := by
  unfold calculateLuhnCheckDigit
  simp only
  split_ifs <;> omega

/-- The first iteration of the retry loop always returns. -/
theorem GenerateValidCardNumber_first (draws : Nat → Nat) (fuel pos : Nat) :
    GenerateValidCardNumber draws (fuel + 1) pos
      = some ((fillDigits draws 14 [52] pos).1
          ++ sprintfD (calculateLuhnCheckDigit (fillDigits draws 14 [52] pos).1)) := by
  unfold GenerateValidCardNumber
  simp only
  rw [if_pos (validate_append_checkDigit _)]

/-- C20: for every string `s` and every digit `d` in 0..9, `ValidateCardNumberLuhn` accepts
`s` followed by `d` if and only if `d` is `calculateLuhnCheckDigit s`; the check digit is
always in 0..9; and the retry loop of `GenerateValidCardNumber` returns in its first
iteration (one unit of fuel is enough, whatever the draws). -/
theorem C20_check_digit_unique (s : GoString) (d : Nat) (hd : d < 10) :
    (ValidateCardNumberLuhn (s ++ sprintfD d) = true ↔ d = calculateLuhnCheckDigit s) ∧
    calculateLuhnCheckDigit s < 10 ∧
    (∀ (draws : Nat → Nat) (pos : Nat), (GenerateValidCardNumber draws 1 pos).isSome) := by
  refine ⟨?_, calculateLuhnCheckDigit_lt s, ?_⟩
  · rw [sprintfD_digit _ hd]
    unfold ValidateCardNumberLuhn calculateLuhnCheckDigit
    rw [List.reverse_append, List.reverse_singleton, List.singleton_append]
    simp only [luhnLoop, Bool.not_false, beq_iff_eq]
    rw [luhnLoop_acc, luhnDigit_digit _ hd]
    split_ifs <;> omega
  · intro draws pos
    rw [GenerateValidCardNumber_first]
    rfl

theorem C20_check_digit_unique_witness :
    (ValidateCardNumberLuhn ([52, 53, 51, 57, 53, 55, 56, 55, 54, 51, 54, 50, 49, 52, 56]
        ++ sprintfD 6) = true ↔
      6 = calculateLuhnCheckDigit
        [52, 53, 51, 57, 53, 55, 56, 55, 54, 51, 54, 50, 49, 52, 56]) ∧
    calculateLuhnCheckDigit [52, 53, 51, 57, 53, 55, 56, 55, 54, 51, 54, 50, 49, 52, 56] < 10 ∧
    (∀ (draws : Nat → Nat) (pos : Nat), (GenerateValidCardNumber draws 1 pos).isSome) :=
  C20_check_digit_unique [52, 53, 51, 57, 53, 55, 56, 55, 54, 51, 54, 50, 49, 52, 56] 6
    (by decide)


/-! ## Card lookup and card payments -/

/-- The lookup `GetCardByID` finds exactly the stored cards whose HMAC field is the
recomputed one. -/
theorem GetCardByID_eq_some (deps : Deps) (st : Storage) (id : String) (c : Card) :
    GetCardByID deps st id = some c ↔
      st.cards.lookup id = some c ∧ deps.computeCardHMAC c = c.HMAC := by
  unfold GetCardByID
  cases h : st.cards.lookup id with
  | none => simp
  | some card =>
    simp only [Option.some.injEq]
    by_cases hm : deps.computeCardHMAC card = card.HMAC
    · rw [if_neg (not_not.mpr hm)]
      simp only [Option.some.injEq]
      constructor
      · intro e
        subst e
        exact ⟨rfl, hm⟩
      · intro e
        exact e.1
    · rw [if_pos hm]
      constructor
      · intro e
        cases e
      · intro e
        obtain ⟨e1, e2⟩ := e
        subst e1
        exact absurd e2 hm

theorem GetCardByID_eq_none (deps : Deps) (st : Storage) (id : String) :
    GetCardByID deps st id = none ↔
      st.cards.lookup id = none ∨
        ∃ c, st.cards.lookup id = some c ∧ deps.computeCardHMAC c ≠ c.HMAC := by
  unfold GetCardByID
  cases h : st.cards.lookup id with
  | none => simp
  | some card =>
    by_cases hm : deps.computeCardHMAC card = card.HMAC
    · simp [hm]
    · simp [hm]

/-- A payment whose card is not found is answered 404 without touching the storage, and a
payment with a non-positive amount 400. -/
theorem PayWithCardHandler_card_not_found (deps : Deps) (st : Storage)
    (r : Request PaymentRequest) (req : PaymentRequest) (now now2 : Time) (newID : String)
    (hb : r.body = some req) (hc : GetCardByID deps st req.CardNumber = none) :
    PayWithCardHandler deps st r now now2 newID
      = if req.Amount ≤ 0 then (st, respondError 400 "Payment amount must be positive")
        else (st, respondError 404 "Card not found") := by
  unfold PayWithCardHandler
  simp only [hb, hc]

/-- For a payment with a positive amount, `PayWithCardHandler` answers 404 "Card not found"
when the card id is unknown and equally when the stored card fails the HMAC check, and it
answers 401 "Invalid CVV" when the card is found and the CVV does not match; the storage is
unchanged in all three cases. -/
theorem PayWithCardHandler_error_answers (deps : Deps) (st : Storage)
    (r : Request PaymentRequest) (req : PaymentRequest) (now now2 : Time) (newID : String)
    (hb : r.body = some req) (ha : 0 < req.Amount) :
    (st.cards.lookup req.CardNumber = none →
      PayWithCardHandler deps st r now now2 newID = (st, respondError 404 "Card not found")) ∧
    (∀ c, st.cards.lookup req.CardNumber = some c → deps.computeCardHMAC c ≠ c.HMAC →
      PayWithCardHandler deps st r now now2 newID = (st, respondError 404 "Card not found")) ∧
    (∀ c, st.cards.lookup req.CardNumber = some c → deps.computeCardHMAC c = c.HMAC →
      deps.CompareHashAndPassword c.CVV req.CVV = false →
      PayWithCardHandler deps st r now now2 newID = (st, respondError 401 "Invalid CVV")) := by
  have hna : ¬ req.Amount ≤ 0 := not_le.mpr ha
  refine ⟨?_, ?_, ?_⟩
  · intro h
    rw [PayWithCardHandler_card_not_found deps st r req now now2 newID hb
      ((GetCardByID_eq_none deps st _).mpr (Or.inl h)), if_neg hna]
  · intro c h1 h2
    rw [PayWithCardHandler_card_not_found deps st r req now now2 newID hb
      ((GetCardByID_eq_none deps st _).mpr (Or.inr ⟨c, h1, h2⟩)), if_neg hna]
  · intro c h1 h2 h3
    have hc := (GetCardByID_eq_some deps st req.CardNumber c).mpr ⟨h1, h2⟩
    unfold PayWithCardHandler
    simp only [hb, hc, h3]
    rw [if_neg hna]
    simp

/-- C15 (the code at the failing input): on the same store and with the same amount, a
payment on the unknown card id "card-9" and a payment on the card "card-2", whose HMAC does
not verify, are both answered 404 "Card not found", while a payment on the intact card
"card-1" with the wrong CVV "999" is answered 401 "Invalid CVV": the status of the response
tells a missing card from an existing one. -/
theorem C15_card_existence_revealed_by_status :
    PayWithCardHandler specDeps exCardStore ⟨some "alice", some ⟨"card-9", "123", 10, "shop"⟩⟩
      5 6 "p" = (exCardStore, respondError 404 "Card not found") ∧
    PayWithCardHandler specDeps exCardStore ⟨some "alice", some ⟨"card-2", "123", 10, "shop"⟩⟩
      5 6 "p" = (exCardStore, respondError 404 "Card not found") ∧
    PayWithCardHandler specDeps exCardStore ⟨some "alice", some ⟨"card-1", "999", 10, "shop"⟩⟩
      5 6 "p" = (exCardStore, respondError 401 "Invalid CVV") ∧
    (PayWithCardHandler specDeps exCardStore ⟨some "alice", some ⟨"card-9", "123", 10, "shop"⟩⟩
      5 6 "p").2.status ≠
    (PayWithCardHandler specDeps exCardStore ⟨some "alice", some ⟨"card-1", "999", 10, "shop"⟩⟩
      5 6 "p").2.status := by
  have e1 := (PayWithCardHandler_error_answers specDeps exCardStore
    ⟨some "alice", some ⟨"card-9", "123", 10, "shop"⟩⟩ ⟨"card-9", "123", 10, "shop"⟩ 5 6 "p"
    rfl (by decide)).1 (by decide)
  have e2 := (PayWithCardHandler_error_answers specDeps exCardStore
    ⟨some "alice", some ⟨"card-2", "123", 10, "shop"⟩⟩ ⟨"card-2", "123", 10, "shop"⟩ 5 6 "p"
    rfl (by decide)).2.1 exTamperedCard (by decide) (by decide)
  have e3 := (PayWithCardHandler_error_answers specDeps exCardStore
    ⟨some "alice", some ⟨"card-1", "999", 10, "shop"⟩⟩ ⟨"card-1", "999", 10, "shop"⟩ 5 6 "p"
    rfl (by decide)).2.2 exCard (by decide) (by decide) (by decide)
  refine ⟨e1, e2, e3, ?_⟩
  rw [e1, e3]
  decide

/-- C16: `GetCardByID` returns a card exactly when that card is stored under the id and
its HMAC field equals `computeCardHMAC` of the record; for a stored card whose HMAC field
differs from the recomputed value it returns nothing, and every payment naming that card
leaves the storage unchanged and is not answered 200. -/
theorem C16_tampered_card_not_found (deps : Deps) (st : Storage) (id : String) :
    (∀ c, GetCardByID deps st id = some c ↔
      st.cards.lookup id = some c ∧ deps.computeCardHMAC c = c.HMAC) ∧
    (∀ c, st.cards.lookup id = some c → deps.computeCardHMAC c ≠ c.HMAC →
      GetCardByID deps st id = none ∧
      ∀ (r : Request PaymentRequest) (req : PaymentRequest) (now now2 : Time)
        (newID : String), r.body = some req → req.CardNumber = id →
        (PayWithCardHandler deps st r now now2 newID).1 = st ∧
        (PayWithCardHandler deps st r now now2 newID).2.status ≠ 200) := by
  refine ⟨GetCardByID_eq_some deps st id, ?_⟩
  intro c h1 h2
  have hn : GetCardByID deps st id = none :=
    (GetCardByID_eq_none deps st id).mpr (Or.inr ⟨c, h1, h2⟩)
  refine ⟨hn, ?_⟩
  intro r req now now2 newID hb hid
  subst hid
  rw [PayWithCardHandler_card_not_found deps st r req now now2 newID hb hn]
  split_ifs
  · exact ⟨rfl, by simp [respondError, respondJSON]⟩
  · exact ⟨rfl, by simp [respondError, respondJSON]⟩

theorem C16_tampered_card_not_found_witness :
    GetCardByID specDeps exCardStore "card-2" = none ∧
    (PayWithCardHandler specDeps exCardStore
      ⟨some "alice", some ⟨"card-2", "123", 10, "shop"⟩⟩ 5 6 "p").1 = exCardStore :=
  have h := (C16_tampered_card_not_found specDeps exCardStore "card-2").2 exTamperedCard
    (by decide) (by decide)
  ⟨h.1, (h.2 ⟨some "alice", some ⟨"card-2", "123", 10, "shop"⟩⟩ ⟨"card-2", "123", 10, "shop"⟩
    5 6 "p" rfl rfl).1⟩

/-! ## Loans on foreign accounts and the billing worker -/

/-- C18 (the code at the failing input): the caller is "bob", the account "A1" belongs to
"alice"; `ApplyLoanHandler` answers 201, stores the loan and credits 1000 to "A1". -/
theorem C18_loan_on_foreign_account_accepted :
    exA1.UserID = "alice" ∧
    (ApplyLoanHandler specDeps exCardStore ⟨some "bob", some ⟨"bob", "A1", 1000, 12⟩⟩
      (Except.error "no rate") 0 1 "loan-1" "tx-1").2.status = 201 ∧
    ((ApplyLoanHandler specDeps exCardStore ⟨some "bob", some ⟨"bob", "A1", 1000, 12⟩⟩
      (Except.error "no rate") 0 1 "loan-1" "tx-1").1.loans.lookup "loan-1").isSome = true ∧
    ((ApplyLoanHandler specDeps exCardStore ⟨some "bob", some ⟨"bob", "A1", 1000, 12⟩⟩
      (Except.error "no rate") 0 1 "loan-1" "tx-1").1.accounts.lookup "A1").map
        (fun a => a.Balance) = some 2000 := by
  decide!

/-- C17 (the code at the failing input): loan 1 has two unpaid installments, due at 100 and
at 200; after a tick at 150 both rows are marked paid, the one that is not yet due
included. -/
theorem C17_tick_marks_future_installment_paid :
    ProcessPayments exDbEnv exLoanTable 150
      = [⟨1, 10, 100, 50, 0, true⟩, ⟨1, 10, 200, 50, 0, true⟩] := by
  decide!


/-! ## The calendar: the expiry instant of a card -/

theorem civil_eq (t : Time) : civil t = civilFromDays (t / nanosPerDay) := rfl

theorem firstOfMonthCheck_sound (year month : Nat) (h : firstOfMonthCheck year month = true) :
    civilFromDays ((firstDayIndex year month : Int) - 719468)
      = ((year : Int), (month : Int), 1) := by
  unfold firstOfMonthCheck at h
  simp only [Bool.and_eq_true, decide_eq_true_eq] at h
  obtain ⟨⟨⟨⟨g1, g2⟩, g3⟩, g4⟩, g5⟩ := h
  generalize firstDayIndex year month = z at g1 g2 g3 g4 g5 ⊢
  have hyoe : yoeNat (z % 146097)
      = (z % 146097 - z % 146097 / 1460 + z % 146097 / 36524 - z % 146097 / 146096) / 365 :=
    rfl
  generalize yoeNat (z % 146097) = yoe at g2 g3 g4 g5 hyoe
  generalize hdoe : z % 146097 = doe at g1 g2 g3 g4 g5 hyoe
  generalize hera : z / 146097 = era at g5
  have e1 : ((z : Int)) / 146097 = (era : Int) := by omega
  have e2 : ((z : Int)) % 146097 = (doe : Int) := by omega
  have e3 : ((doe : Int) - (doe : Int) / 1460 + (doe : Int) / 36524 - (doe : Int) / 146096)
      / 365 = (yoe : Int) := by omega
  generalize hs : 365 * yoe + yoe / 4 - yoe / 100 = s at g2 g3 g4
  have e4 : (doe : Int) - (365 * (yoe : Int) + (yoe : Int) / 4 - (yoe : Int) / 100)
      = ((doe - s : Nat) : Int) := by omega
  generalize hdoy : doe - s = doy at g3 g4 e4
  generalize hmp : (5 * doy + 2) / 153 = mp at g3 g4
  have e5 : (5 * (doy : Int) + 2) / 153 = (mp : Int) := by omega
  have e6 : (doy : Int) - (153 * (mp : Int) + 2) / 5 + 1 = 1 := by omega
  unfold civilFromDays
  simp only [sub_add_cancel, e1, e2, e3, e4, e5, e6]
  by_cases hlt : mp < 10
  · rw [if_pos hlt] at g4
    have hm : (mp : Int) + 3 = (month : Int) := by omega
    rw [if_pos (by omega : (mp : Int) < 10), hm]
    by_cases h2 : month ≤ 2
    · rw [if_pos h2] at g5
      rw [if_pos (by omega : (month : Int) ≤ 2)]
      refine Prod.ext ?_ rfl
      simp only
      omega
    · rw [if_neg h2] at g5
      rw [if_neg (by omega : ¬ (month : Int) ≤ 2)]
      refine Prod.ext ?_ rfl
      simp only
      omega
  · rw [if_neg hlt] at g4
    have hm : (mp : Int) - 9 = (month : Int) := by omega
    rw [if_neg (by omega : ¬ (mp : Int) < 10), hm]
    by_cases h2 : month ≤ 2
    · rw [if_pos h2] at g5
      rw [if_pos (by omega : (month : Int) ≤ 2)]
      refine Prod.ext ?_ rfl
      simp only
      omega
    · rw [if_neg h2] at g5
      rw [if_neg (by omega : ¬ (month : Int) ≤ 2)]
      refine Prod.ext ?_ rfl
      simp only
      omega

set_option maxRecDepth 100000 in
/-- The check passes on the first day of every month of the years 2000..2399. -/
theorem firstOfMonthCheck_cycle :
    ∀ y : Fin 400, ∀ m : Fin 12, firstOfMonthCheck (y.val + 2000) (m.val + 1) = true := by
  decide!

theorem daysBeforeNat_eq (month : Nat) (h1 : 1 ≤ month) (h12 : month ≤ 12) :
    daysBefore ((month : Int) - 1) = (daysBeforeNat month : Int) := by
  interval_cases month <;> rfl

theorem firstDayIndex_eq (year month : Nat) (hy : 1 ≤ year) (h1 : 1 ≤ month)
    (h12 : month ≤ 12) :
    firstDayNumber (year : Int) (month : Int) = (firstDayIndex year month : Int) - 719468 := by
  have hl : (isLeap (year : Int) = true ∧ (3 : Int) ≤ (month : Int))
      ↔ ((year % 4 = 0 ∧ (year % 100 ≠ 0 ∨ year % 400 = 0)) ∧ 3 ≤ month) := by
    unfold isLeap
    simp only [decide_eq_true_eq]
    omega
  unfold firstDayNumber firstDayIndex daysSinceEpoch
  rw [daysBeforeNat_eq month h1 h12]
  generalize daysBeforeNat month = b
  by_cases hp : (year % 4 = 0 ∧ (year % 100 ≠ 0 ∨ year % 400 = 0)) ∧ 3 ≤ month
  · rw [if_pos hp, if_pos (hl.mpr hp)]
    omega
  · rw [if_neg hp, if_neg (fun h => hp (hl.mp h))]
    omega

theorem isLeap_add_cycle (y q : Int) : isLeap (y + 400 * q) = isLeap y := by
  unfold isLeap
  have h4 : (y + 400 * q) % 4 = y % 4 := by omega
  have h100 : (y + 400 * q) % 100 = y % 100 := by omega
  have h400 : (y + 400 * q) % 400 = y % 400 := by omega
  rw [h4, h100, h400]

theorem firstDayNumber_add_cycle (y q month : Int) :
    firstDayNumber (y + 400 * q) month = firstDayNumber y month + 146097 * q := by
  unfold firstDayNumber
  rw [isLeap_add_cycle]
  unfold daysSinceEpoch
  split_ifs <;> omega

theorem civilFromDays_add_cycle (days q : Int) :
    civilFromDays (days + 146097 * q)
      = ((civilFromDays days).1 + 400 * q, (civilFromDays days).2.1,
          (civilFromDays days).2.2) := by
  have e1 : (days + 146097 * q + 719468) / 146097 = (days + 719468) / 146097 + q := by omega
  have e2 : (days + 146097 * q + 719468) % 146097 = (days + 719468) % 146097 := by omega
  unfold civilFromDays
  simp only [e1, e2]
  refine Prod.ext ?_ rfl
  simp only
  split_ifs <;> ring

/-- The first day of every month of every year is mapped back to its date. -/
theorem civilFromDays_firstDayNumber (year month : Int) (h1 : 1 ≤ month) (h12 : month ≤ 12) :
    civilFromDays (firstDayNumber year month) = (year, month, 1) := by
  have h0 : 0 ≤ (year - 2000) % 400 := Int.emod_nonneg _ (by decide)
  have h400 : (year - 2000) % 400 < 400 := Int.emod_lt_of_pos _ (by decide)
  have hy : year = (year - 2000) % 400 + 2000 + 400 * ((year - 2000) / 400) := by omega
  have hc := firstOfMonthCheck_sound (((year - 2000) % 400).toNat + 2000) ((month - 1).toNat + 1)
    (firstOfMonthCheck_cycle ⟨((year - 2000) % 400).toNat, by omega⟩
      ⟨(month - 1).toNat, by omega⟩)
  rw [← firstDayIndex_eq _ _ (by omega) (by omega) (by omega)] at hc
  have ek : ((((year - 2000) % 400).toNat + 2000 : Nat) : Int) = (year - 2000) % 400 + 2000 := by
    omega
  have em : (((month - 1).toNat + 1 : Nat) : Int) = month := by omega
  rw [ek, em] at hc
  rw [hy, firstDayNumber_add_cycle, civilFromDays_add_cycle, hc]

/-- The instant of a date in a month 1..12, from the day number of the first of the
month. -/
theorem Date_eq (year month day hour min sec nsec : Int) (h1 : 1 ≤ month)
    (h12 : month ≤ 12) :
    Date year month day hour min sec nsec
      = ((firstDayNumber year month + (day - 1)) * 86400 + hour * 3600 + min * 60 + sec)
          * 1000000000 + nsec := by
  have e1 : (month - 1) / 12 = 0 := by omega
  have e2 : (month - 1) % 12 = month - 1 := by omega
  unfold Date firstDayNumber
  simp only [e1, e2, add_zero, sub_add_cancel]

theorem civil_first_of_month (year month : Int) (h1 : 1 ≤ month) (h12 : month ≤ 12) :
    civil (Date year month 1 23 59 59 0) = (year, month, 1) := by
  rw [civil_eq, Date_eq _ _ _ _ _ _ _ h1 h12]
  have e : ((firstDayNumber year month + (1 - 1)) * 86400 + 23 * 3600 + 59 * 60 + 59)
      * 1000000000 + 0 = firstDayNumber year month * nanosPerDay + 86399000000000 := by
    unfold nanosPerDay
    ring
  have e2 : (firstDayNumber year month * nanosPerDay + 86399000000000) / nanosPerDay
      = firstDayNumber year month := by
    unfold nanosPerDay
    omega
  rw [e, e2]
  exact civilFromDays_firstDayNumber year month h1 h12

/-- The expiry instant the handler computes is one month after the first of the month,
minus one day, at the same time of day. -/
theorem AddDate_first_of_month (year month : Int) (h1 : 1 ≤ month) (h12 : month ≤ 12) :
    AddDate (Date year month 1 23 59 59 0) 0 1 (-1) = Date year (month + 1) 0 23 59 59 0 := by
  unfold AddDate
  rw [civil_first_of_month year month h1 h12]
  rw [Date_eq _ _ _ _ _ _ _ h1 h12]
  have e : ((firstDayNumber year month + (1 - 1)) * 86400 + 23 * 3600 + 59 * 60 + 59)
      * 1000000000 + 0 = firstDayNumber year month * nanosPerDay + 86399000000000 := by
    unfold nanosPerDay
    ring
  have e2 : (firstDayNumber year month * nanosPerDay + 86399000000000) % nanosPerDay
      = 86399000000000 := by
    unfold nanosPerDay
    omega
  simp only [e, e2]
  norm_num

theorem daysSinceEpoch_succ (year : Int) :
    daysSinceEpoch (year + 1) = daysSinceEpoch year + 365 + (if isLeap year then 1 else 0) := by
  unfold daysSinceEpoch isLeap
  simp only [decide_eq_true_eq]
  split_ifs with h
  · omega
  · omega

/-- Day 0 of the next month is the last day of the month, with the month lengths of the
Gregorian calendar. -/
theorem Date_day_zero_next_month (year month : Int) (h1 : 1 ≤ month) (h12 : month ≤ 12) :
    Date year (month + 1) 0 23 59 59 0 = specExpiry year month := by
  have hl : (isLeap year = true) = (year % 4 = 0 ∧ (year % 100 ≠ 0 ∨ year % 400 = 0)) := by
    unfold isLeap
    simp only [decide_eq_true_eq]
  unfold specExpiry
  rw [Date_eq year month _ _ _ _ _ h1 h12]
  rcases eq_or_lt_of_le h12 with h | h
  · subst h
    have e1 : ((12 : Int) + 1 - 1) / 12 = 1 := by decide
    have e2 : ((12 : Int) + 1 - 1) % 12 = 0 := by decide
    unfold Date
    simp only [e1, e2]
    rw [daysSinceEpoch_succ]
    by_cases hp : year % 4 = 0 ∧ (year % 100 ≠ 0 ∨ year % 400 = 0)
    · simp [daysBefore, hl, hp, firstDayNumber, specDaysInMonth]
      split_ifs <;> (show (_ : Int) = _) <;> omega
    · simp [daysBefore, hl, hp, firstDayNumber, specDaysInMonth]
      split_ifs <;> (show (_ : Int) = _) <;> omega
  · rw [Date_eq year (month + 1) _ _ _ _ _ (by omega) (by omega)]
    by_cases hp : year % 4 = 0 ∧ (year % 100 ≠ 0 ∨ year % 400 = 0)
    · interval_cases month <;> simp [daysBefore, hl, hp, firstDayNumber, specDaysInMonth] <;>
        (try split_ifs) <;> (show (_ : Int) = _) <;> omega
    · interval_cases month <;> simp [daysBefore, hl, hp, firstDayNumber, specDaysInMonth] <;>
        (try split_ifs) <;> (show (_ : Int) = _) <;> omega

/-- The expiry instant `PayWithCardHandler` computes is 23:59:59 UTC on the last calendar
day of the expiry month. -/
theorem expiry_eq_specExpiry (year month : Int) (h1 : 1 ≤ month) (h12 : month ≤ 12) :
    AddDate (Date year month 1 23 59 59 0) 0 1 (-1) = specExpiry year month := by
  rw [AddDate_first_of_month year month h1 h12, Date_day_zero_next_month year month h1 h12]

/-- The instant of the specification falls on the expected calendar day: 29 February in
the leap years 2028 and 2000, 28 February in 2027 and 2100, 31 December, 30 April. -/
theorem specExpiry_examples :
    civil (specExpiry 2028 2) = (2028, 2, 29) ∧ civil (specExpiry 2000 2) = (2000, 2, 29) ∧
    civil (specExpiry 2027 2) = (2027, 2, 28) ∧ civil (specExpiry 2100 2) = (2100, 2, 28) ∧
    civil (specExpiry 2025 12) = (2025, 12, 31) ∧ civil (specExpiry 2026 4) = (2026, 4, 30) ∧
    specExpiry 2025 12 % nanosPerDay = 86399000000000 := by
  decide!

/-- C14: for a payment with a positive amount on a card that is found, whose CVV matches,
whose expiry month is in 1..12 and whose expiry year is within `10^9` of 0 (a range in
which Go's `int64` seconds hold the date), `PayWithCardHandler` answers 400 "Card expired" and
leaves the storage unchanged (no debit, no journal entry) when the current time is after
23:59:59 UTC on the last calendar day of the expiry month (28, 29, 30 or 31 days, by the
Gregorian rules), and otherwise its answer is not the expiry error and its status is not
400. -/
theorem C14_card_expiry (deps : Deps) (st : Storage) (r : Request PaymentRequest)
    (req : PaymentRequest) (now now2 : Time) (newID : String) (card : Card)
    (hb : r.body = some req) (ha : 0 < req.Amount)
    (hc : GetCardByID deps st req.CardNumber = some card)
    (hv : deps.CompareHashAndPassword card.CVV req.CVV = true)
    (h1 : 1 ≤ card.ExpiryMonth) (h12 : card.ExpiryMonth ≤ 12)
    (_hy1 : -1000000000 ≤ card.ExpiryYear) (_hy2 : card.ExpiryYear ≤ 1000000000) :
    (specExpiry card.ExpiryYear card.ExpiryMonth < now →
      PayWithCardHandler deps st r now now2 newID = (st, respondError 400 "Card expired")) ∧
    (¬ specExpiry card.ExpiryYear card.ExpiryMonth < now →
      (PayWithCardHandler deps st r now now2 newID).2 ≠ respondError 400 "Card expired" ∧
      (PayWithCardHandler deps st r now now2 newID).2.status ≠ 400) := by
  have he := expiry_eq_specExpiry card.ExpiryYear card.ExpiryMonth h1 h12
  have hna : ¬ req.Amount ≤ 0 := not_le.mpr ha
  constructor
  · intro hexp
    unfold PayWithCardHandler
    simp only [hb, hc, hv, he]
    rw [if_neg hna, if_neg (by simp), if_pos hexp]
  · intro hexp
    have hs : (PayWithCardHandler deps st r now now2 newID).2.status ≠ 400 := by
      unfold PayWithCardHandler
      simp only [hb, hc, hv, he]
      rw [if_neg hna, if_neg (by simp), if_neg hexp]
      cases deps.GetAccount st card.AccountID with
      | none => simp [respondError, respondJSON]
      | some account =>
        simp only
        split_ifs
        · simp [respondError, respondJSON]
        · cases deps.UpdateAccountBalance st account.ID (-req.Amount) with
          | error e => simp [respondError, respondJSON]
          | ok st1 => simp [respondJSON]
    refine ⟨?_, hs⟩
    intro h
    apply hs
    rw [h]
    rfl

theorem C14_card_expiry_witness :
    PayWithCardHandler specDeps exCardStore ⟨some "alice", some ⟨"card-1", "123", 10, "shop"⟩⟩
        (Date 2028 3 1 0 0 0 0) (Date 2028 3 1 0 0 0 1) "p"
      = (exCardStore, respondError 400 "Card expired") :=
  (C14_card_expiry specDeps exCardStore ⟨some "alice", some ⟨"card-1", "123", 10, "shop"⟩⟩
    ⟨"card-1", "123", 10, "shop"⟩ (Date 2028 3 1 0 0 0 0) (Date 2028 3 1 0 0 0 1) "p" exCard
    rfl (by decide) (by decide) (by decide) (by decide) (by decide) (by decide)
    (by decide)).1 (by decide!)

/-! ## Inputs the Luhn validation does not reject -/

/-- C21: `ValidateCardNumberLuhn` does not check that its input is a non-empty string of
decimal digits: it returns true on the empty string, and it returns true on the
one-character string ":" (byte 58, which is not a digit: 58 minus the byte 48 of '0' is
10, the sum is 10 and 10 % 10 = 0). -/
theorem C21_luhn_accepts_empty_and_non_digit :
    ValidateCardNumberLuhn [] = true ∧
    (':').toNat = 58 ∧ ('0').toNat = 48 ∧
    ¬ allDigits [58] ∧
    luhnDigit 58 false = 10 ∧
    luhnLoop ([58] : GoString).reverse false 0 = 10 ∧
    ValidateCardNumberLuhn [58] = true := by
  refine ⟨by decide, by decide, by decide, ?_, by decide, by decide, by decide⟩
  intro h
  exact absurd (h 58 (List.mem_singleton.mpr rfl)).2 (by decide)

end Bank
